import Mathlib

/-!
Incident map dashboard: embedding of the client-side data transformations.

The JavaScript sources are embedded as pure functions over lists.

* A record field is either a raw scalar or a pair with the components
  value and display_value (`Field`).
* A scalar is what the Table API serialises: a JSON string, or nothing at
  all (JavaScript undefined) (`Scalar`).
* Platform built-ins whose exact tables are not part of the repository
  (String.prototype.toLowerCase, parseFloat, Date parsing, Number to string)
  are parameters of the functions that call them.
-/

namespace IncidentMap

/-! ## Data model -/

/-- A scalar of a fetched record: a JSON string, or an absent property (undefined).
The Table API serialises every column value as a string, so null, numbers and booleans
do not occur as scalars. -/
inductive Scalar where
  | undefined : Scalar
  | str (s : String) : Scalar
  deriving DecidableEq, Repr

/-- A record field as the API delivers it: a raw scalar, or an object with the
two properties value and display_value. -/
inductive Field where
  | raw (v : Scalar) : Field
  | pair (value display_value : Scalar) : Field
  deriving DecidableEq, Repr

/-- The expression `typeof f === 'object' ? f.value : f`. -/
def Field.value : Field → Scalar
  | .raw v => v
  | .pair v _ => v

/-- The expression `typeof f === 'object' ? f.display_value : f`. -/
def Field.display_value : Field → Scalar
  | .raw v => v
  | .pair _ d => d

/-- JavaScript truthiness of a scalar: undefined and the empty string are falsy. -/
def Scalar.truthy : Scalar → Bool
  | .undefined => false
  | .str s => s != ""

/-- The conversion `String(v)`. -/
def jsString : Scalar → String
  | .undefined => "undefined"
  | .str s => s

/-- The method `s.includes(sub)` of strings: `sub` occurs in `s` as a contiguous run. -/
def includes (s sub : String) : Bool :=
  decide (sub.data <:+: s.data)

/-- The guard `x && k(x)` used as a condition, for a scalar `x` on which `k` calls
string methods: false for a falsy `x`, `k x` otherwise. -/
def Scalar.andThen (x : Scalar) (k : String → Bool) : Bool :=
  match x with
  | .undefined => false
  | .str s => if s = "" then false else k s

/-- An incident record with the columns requested by `sysparm_fields`. -/
structure Incident where
  sys_id : Field
  number : Field
  short_description : Field
  state : Field
  priority : Field
  assigned_to : Field
  location : Field
  opened_at : Field
  caller_id : Field
  urgency : Field
  deriving DecidableEq, Repr

/-- The filter object that FilterBar reports to App. -/
structure FilterState where
  search : String
  priority : List String
  state : List String
  dateFrom : String
  dateTo : String
  deriving DecidableEq, Repr

/-- The initial filter state of App, also set by handleClearAll. -/
def defaultFilters : FilterState :=
  { search := "", priority := [], state := [], dateFrom := "", dateTo := "" }

/-! ## app.jsx: filteredIncidents -/

/-- Callback of the search filter (app.jsx, lines 35-43). -/
def searchCallback (toLowerCase : String → String) (searchLower : String)
    (incident : Incident) : Bool :=
  let number := incident.number.display_value
  let shortDesc := incident.short_description.display_value
  number.andThen (fun n => includes (toLowerCase n) searchLower) ||
    shortDesc.andThen (fun d => includes (toLowerCase d) searchLower)

/-- Callback of the priority filter (app.jsx, lines 48-52). -/
def priorityCallback (filters : FilterState) (incident : Incident) : Bool :=
  let priority := incident.priority.value
  filters.priority.contains (jsString priority)

/-- Callback of the state filter (app.jsx, lines 57-61). -/
def stateCallback (filters : FilterState) (incident : Incident) : Bool :=
  let state := incident.state.value
  filters.state.contains (jsString state)

/-- The memoised value filteredIncidents of App (app.jsx, lines 29-65). -/
def filteredIncidents (toLowerCase : String → String) (allIncidents : List Incident)
    (filters : FilterState) : List Incident :=
  let filtered := allIncidents
  let filtered :=
    if filters.search ≠ "" then
      let searchLower := toLowerCase filters.search
      filtered.filter (searchCallback toLowerCase searchLower)
    else filtered
  let filtered :=
    if filters.priority.length > 0 then filtered.filter (priorityCallback filters)
    else filtered
  let filtered :=
    if filters.state.length > 0 then filtered.filter (stateCallback filters)
    else filtered
  filtered

/-- The three-stage conditional filter as one Boolean predicate. -/
def passes (toLowerCase : String → String) (filters : FilterState) (i : Incident) : Bool :=
  (decide (filters.search = "") || searchCallback toLowerCase (toLowerCase filters.search) i) &&
    ((decide (filters.priority = []) || priorityCallback filters i) &&
      (decide (filters.state = []) || stateCallback filters i))

/-- A lower-casing of the ASCII letters, used to instantiate the platform parameter. -/
def asciiLower (s : String) : String := ⟨s.data.map Char.toLower⟩

/-! ## Predicates in the words of the specification -/

/-- The search predicate: the search text is empty, or the lower-cased search text is
a substring of the lower-cased number or of the lower-cased short description. -/
def SearchOk (toLowerCase : String → String) (filters : FilterState) (i : Incident) : Prop :=
  filters.search = "" ∨
    (∃ n, i.number.display_value = .str n ∧
      (toLowerCase filters.search).data <:+: (toLowerCase n).data) ∨
    (∃ d, i.short_description.display_value = .str d ∧
      (toLowerCase filters.search).data <:+: (toLowerCase d).data)

/-- The priority predicate: empty selection, or the string form of the priority value
is selected. -/
def PriorityOk (filters : FilterState) (i : Incident) : Prop :=
  filters.priority = [] ∨ jsString i.priority.value ∈ filters.priority

/-- The state predicate: empty selection, or the string form of the state value is
selected. -/
def StateOk (filters : FilterState) (i : Incident) : Prop :=
  filters.state = [] ∨ jsString i.state.value ∈ filters.state

/-- The first ten characters of a date text, as character codes, for comparison in
dictionary order. -/
def dayKey (s : String) : List Nat :=
  (s.data.take 10).map Char.toNat

/-- The date predicate in the words of the specification: the opened timestamp is on
or after dateFrom (when set) and on or before dateTo (when set). Timestamps have the
form yyyy-MM-dd HH:mm:ss and the filter dates the form yyyy-MM-dd, so the day of the
timestamp (its first ten characters) is compared with the filter date as text. -/
def DateRangeOk (filters : FilterState) (i : Incident) : Prop :=
  (filters.dateFrom = "" ∨ dayKey filters.dateFrom ≤ dayKey (jsString i.opened_at.value)) ∧
    (filters.dateTo = "" ∨ dayKey (jsString i.opened_at.value) ≤ dayKey filters.dateTo)

instance (filters : FilterState) (i : Incident) : Decidable (DateRangeOk filters i) :=
  inferInstanceAs (Decidable
    ((filters.dateFrom = "" ∨ dayKey filters.dateFrom ≤ dayKey (jsString i.opened_at.value)) ∧
      (filters.dateTo = "" ∨ dayKey (jsString i.opened_at.value) ≤ dayKey filters.dateTo)))

/-- An incident passes the client-side filter when filtering it alone keeps it. -/
def PassesFilter (toLowerCase : String → String) (filters : FilterState) (i : Incident) : Prop :=
  filteredIncidents toLowerCase [i] filters = [i]

/-- A pair field. -/
def pairOf (value display_value : String) : Field :=
  .pair (.str value) (.str display_value)

/-- Sample incident INC0010001: priority 2, state 1, opened in 2020. -/
def sampleIncidentA : Incident :=
  { sys_id := pairOf "a1" "a1", number := pairOf "INC0010001" "INC0010001",
    short_description := pairOf "Printer offline" "Printer offline",
    state := pairOf "1" "New", priority := pairOf "2" "2 - High",
    assigned_to := pairOf "" "", location := pairOf "loc1" "Head Office",
    opened_at := pairOf "2020-01-01 08:00:00" "2020-01-01 08:00:00",
    caller_id := pairOf "" "", urgency := pairOf "2" "2 - Medium" }

/-- Sample incident INC0010002: priority 1, state 2, opened in 2024. -/
def sampleIncidentB : Incident :=
  { sys_id := pairOf "b2" "b2", number := pairOf "INC0010002" "INC0010002",
    short_description := pairOf "Email down" "Email down",
    state := pairOf "2" "In Progress", priority := pairOf "1" "1 - Critical",
    assigned_to := pairOf "" "", location := pairOf "loc2" "Branch",
    opened_at := pairOf "2024-06-01 09:30:00" "2024-06-01 09:30:00",
    caller_id := pairOf "" "", urgency := pairOf "1" "1 - High" }

/-! ## IncidentService.js: getFilterOptions -/

/-- One step of building a Set: a value already present is not added again. -/
def setAdd (acc : List Scalar) (x : Scalar) : List Scalar :=
  if x ∈ acc then acc else acc ++ [x]

/-- The expression `[...new Set(xs)]`: the distinct values in order of first occurrence. -/
def newSet (xs : List Scalar) : List Scalar :=
  xs.foldl setAdd []

/-- The UTF-16 code units of a character. -/
def utf16Units (c : Char) : List Nat :=
  if c.toNat < 0x10000 then [c.toNat]
  else [0xD800 + (c.toNat - 0x10000) / 0x400, 0xDC00 + (c.toNat - 0x10000) % 0x400]

/-- The UTF-16 code units of a string, the sequence that string comparison reads. -/
def utf16 (s : String) : List Nat :=
  s.data.flatMap utf16Units

/-- The default comparison of `Array.prototype.sort()` as a "not after" test:
undefined goes last, other values are compared by the code units of their string form. -/
def sortCompareLe : Scalar → Scalar → Bool
  | .undefined, .undefined => true
  | .undefined, .str _ => false
  | .str _, .undefined => true
  | .str s, .str t => decide (utf16 s ≤ utf16 t)

/-- The call `xs.sort()` without a comparator: a stable sort by `sortCompareLe`. -/
def defaultSort (xs : List Scalar) : List Scalar :=
  xs.insertionSort (fun a b => sortCompareLe a b = true)

/-- The object returned by getFilterOptions. -/
structure FilterOptions where
  priorities : List Scalar
  states : List Scalar
  deriving DecidableEq, Repr

/-- The method getFilterOptions (IncidentService.js, lines 125-147), given the outcome of
its call of listActiveIncidents: the fetched incidents, or the error that was thrown. -/
def getFilterOptions (fetched : Except String (List Incident)) : FilterOptions :=
  match fetched with
  | .ok incidents =>
    let priorities := defaultSort (newSet ((incidents.map (fun incident =>
      let priority := incident.priority.value
      priority)).filter Scalar.truthy))
    let states := defaultSort (newSet ((incidents.map (fun incident =>
      let state := incident.state.value
      state)).filter Scalar.truthy))
    { priorities := priorities, states := states }
  | .error _ => { priorities := [], states := [] }

/-- Ascending order of facet values: by the UTF-16 code units of their text. -/
def TextAscending (a b : Scalar) : Prop :=
  utf16 (jsString a) ≤ utf16 (jsString b)

/-! ## IncidentMap.jsx: incidentMarkers and locationGroups -/

/-- A location record with the columns requested by `sysparm_fields`. -/
structure Location where
  sys_id : Field
  name : Field
  latitude : Field
  longitude : Field
  city : Field
  state : Field
  country : Field
  full_name : Field
  deriving DecidableEq, Repr

/-- A marker `{...incident, position: [lat, lng], location: location}`: the properties
of the incident, the position, and the resolved location record, which takes the place
of the incident's own location property. `Num` is the type of JavaScript numbers. -/
structure Marker (Num : Type) where
  incident : Incident
  position : Num × Num
  location : Location
  deriving DecidableEq, Repr

/-- A value of the groups object: `{position, location, incidents}`. -/
structure Group (Num : Type) where
  position : Num × Num
  location : Location
  incidents : List (Marker Num)
  deriving DecidableEq, Repr

/-- The template literal that builds locationKey from position[0] and position[1];
`numToString` is the platform's conversion of a number to text. Numbers are taken up to
`===`, so 0 and -0, which have the same text, are one number. -/
def locationKey {Num : Type} (numToString : Num → String) (position : Num × Num) : String :=
  numToString position.1 ++ "," ++ numToString position.2

/-- The body of the forEach callback of locationGroups (IncidentMap.jsx, lines 140-148)
on the groups object, kept as its list of (key, value) entries in insertion order:
a missing key gets a fresh group at the end, then the incident is pushed to the
group of its key. -/
def groupsPush {Num : Type} (key : String) (incident : Marker Num) :
    List (String × Group Num) → List (String × Group Num)
  | [] => [(key, { position := incident.position, location := incident.location,
                   incidents := [incident] })]
  | (k, g) :: rest =>
    if k = key then (k, { g with incidents := g.incidents ++ [incident] }) :: rest
    else (k, g) :: groupsPush key incident rest

/-- The memoised value locationGroups (IncidentMap.jsx, lines 137-151): the forEach loop
over incidentMarkers followed by Object.values. The keys contain a comma, so none is an
array index and Object.values lists the groups in insertion order. -/
def locationGroups {Num : Type} (numToString : Num → String)
    (incidentMarkers : List (Marker Num)) : List (Group Num) :=
  let groups := incidentMarkers.foldl
    (fun groups incident => groupsPush (locationKey numToString incident.position) incident groups)
    []
  groups.map Prod.snd

/-- What holds of every entry of the groups object: the key is the key of the group's
position, every incident of the group has that key, and the group's position is the
position of one of its incidents. -/
def EntryOk {Num : Type} (numToString : Num → String) (e : String × Group Num) : Prop :=
  e.1 = locationKey numToString e.2.position ∧
    (∀ m ∈ e.2.incidents, locationKey numToString m.position = e.1) ∧
    (∃ m ∈ e.2.incidents, m.position = e.2.position)

/-- Number to text for integer coordinates, used to instantiate the platform parameter. -/
def intToString (n : Int) : String := toString n

/-- Location record Head Office with sys_id loc1. -/
def sampleLocationA : Location :=
  { sys_id := pairOf "loc1" "loc1", name := pairOf "Head Office" "Head Office",
    latitude := pairOf "40" "40", longitude := pairOf "-74" "-74",
    city := pairOf "New York" "New York", state := pairOf "NY" "NY",
    country := pairOf "USA" "USA", full_name := pairOf "Head Office" "Head Office" }

/-- Location record Branch with sys_id loc2. -/
def sampleLocationB : Location :=
  { sys_id := pairOf "loc2" "loc2", name := pairOf "Branch" "Branch",
    latitude := pairOf "34" "34", longitude := pairOf "-118" "-118",
    city := pairOf "Los Angeles" "Los Angeles", state := pairOf "CA" "CA",
    country := pairOf "USA" "USA", full_name := pairOf "Branch" "Branch" }

/-- Four markers on three positions, two of which share the latitude 40. -/
def sampleMarkers : List (Marker Int) :=
  [ { incident := sampleIncidentA, position := (40, -74), location := sampleLocationA },
    { incident := sampleIncidentB, position := (34, -118), location := sampleLocationB },
    { incident := sampleIncidentB, position := (40, -74), location := sampleLocationA },
    { incident := sampleIncidentA, position := (40, 10), location := sampleLocationB } ]

/-- The lookup `locations.find(loc => sysId === locationSysId)` with sysId the normalized
sys_id of the record (IncidentMap.jsx, lines 78-81; IncidentList.jsx, lines 45-48). -/
def findLocation (locations : List Location) (locationSysId : Scalar) : Option Location :=
  locations.find? (fun loc =>
    let sysId := loc.sys_id.value
    decide (sysId = locationSysId))

/-- The callback of the map in incidentMarkers (IncidentMap.jsx, lines 75-98): the marker
of an incident, or nothing for the value null. `parseFloat` is the platform function,
with no result standing for NaN; it is only reached for truthy lat and lng. -/
def markerOf {Num : Type} (parseFloat : String → Option Num) (locations : List Location)
    (incident : Incident) : Option (Marker Num) :=
  let locationSysId := incident.location.value
  match findLocation locations locationSysId with
  | none => none
  | some location =>
    let lat := location.latitude.display_value
    let lng := location.longitude.display_value
    if !lat.truthy || !lng.truthy then none
    else
      match parseFloat (jsString lat), parseFloat (jsString lng) with
      | some a, some b => some { incident := incident, position := (a, b), location := location }
      | _, _ => none

/-- The memoised value incidentMarkers (IncidentMap.jsx, lines 74-100): the map over the
incidents followed by filter(Boolean), which drops the null entries. -/
def incidentMarkers {Num : Type} (parseFloat : String → Option Num)
    (incidents : List Incident) (locations : List Location) : List (Marker Num) :=
  incidents.filterMap (markerOf parseFloat locations)

/-- The value of a run of decimal digits, if it is one. -/
def parseDigits (ds : List Char) : Option Nat :=
  if ds ≠ [] ∧ ds.all Char.isDigit = true then
    some (ds.foldl (fun n c => 10 * n + (c.toNat - 48)) 0)
  else none

/-- A parser of whole numbers with an optional minus sign, used to instantiate the
platform parameter parseFloat. -/
def parseWhole (s : String) : Option Int :=
  match s.data with
  | '-' :: ds => (parseDigits ds).map (fun n => - (Int.ofNat n))
  | ds => (parseDigits ds).map Int.ofNat

/-- The marker of sample incident A at its location. -/
def sampleMarkerA : Marker Int :=
  { incident := sampleIncidentA, position := (40, -74), location := sampleLocationA }

/-- Sample incident INC0010003: the location reference loc1 given as a raw scalar. -/
def sampleIncidentC : Incident :=
  { sampleIncidentB with
    sys_id := pairOf "c3" "c3", number := pairOf "INC0010003" "INC0010003",
    location := .raw (.str "loc1") }

/-- The marker of sample incident C at location A. -/
def sampleMarkerC : Marker Int :=
  { incident := sampleIncidentC, position := (40, -74), location := sampleLocationA }

/-- The marker of sample incident B at its location. -/
def sampleMarkerB : Marker Int :=
  { incident := sampleIncidentB, position := (34, -118), location := sampleLocationB }

/-! ## IncidentList.jsx: sortedIncidents -/

/-- Subtraction of two numbers either of which may be NaN (no value): NaN if one is. -/
def numSub (x y : Option Int) : Option Int :=
  match x, y with
  | some a, some b => some (a - b)
  | _, _ => none

/-- The time value of `new Date(v)`: NaN for undefined, the parsed text otherwise.
`parseDate` is the platform's date parser, with no result standing for an invalid date. -/
def dateValue (parseDate : String → Option Int) : Scalar → Option Int
  | .undefined => none
  | .str s => parseDate s

/-- The comparator of sortedIncidents (IncidentList.jsx, lines 72-85); the result NaN is
no value. `parseInt` is the platform function applied to the string form of its argument. -/
def compareIncidents (parseInt parseDate : String → Option Int) (a b : Incident) :
    Option Int :=
  let aPriority := a.priority.value
  let bPriority := b.priority.value
  if aPriority ≠ bPriority then
    numSub (parseInt (jsString aPriority)) (parseInt (jsString bPriority))
  else
    let aDate := a.opened_at.display_value
    let bDate := b.opened_at.display_value
    numSub (dateValue parseDate bDate) (dateValue parseDate aDate)

/-- The call `xs.sort(cmp)` for a consistent comparator (one that orders the elements
of the list): the language fixes the result, the stable sorted order, which insertion
produces; a comparator result NaN counts as 0. For a comparator that is not consistent
the order is left to the engine and this definition does not describe it. -/
def sortWith {α : Type} (cmp : α → α → Option Int) (xs : List α) : List α :=
  xs.insertionSort (fun a b => (cmp a b).getD 0 ≤ 0)

/-- The memoised value sortedIncidents (IncidentList.jsx, lines 71-86). -/
def sortedIncidents (parseInt parseDate : String → Option Int) (incidents : List Incident) :
    List Incident :=
  sortWith (compareIncidents parseInt parseDate) incidents

/-- The priority number that the comparator reads: parseInt of the normalized
priority. -/
def priorityNumber (parseInt : String → Option Int) (i : Incident) : Option Int :=
  parseInt (jsString i.priority.value)

/-- The opened time that the comparator reads: the time value of Date for the display
value of opened_at. -/
def openedTime (parseDate : String → Option Int) (i : Incident) : Option Int :=
  dateValue parseDate i.opened_at.display_value

/-- The order of a pair (a, b) in the numbers that the comparator reads, as a test: both
have a priority number, and the number of a is smaller, or the numbers are equal, both
have an opened time and the time of a is not before the time of b. -/
def inListOrder (parseInt parseDate : String → Option Int) (a b : Incident) : Bool :=
  match priorityNumber parseInt a, priorityNumber parseInt b with
  | some pa, some pb =>
    decide (pa < pb) ||
      (decide (pa = pb) &&
        (match openedTime parseDate a, openedTime parseDate b with
          | some ta, some tb => decide (ta ≥ tb)
          | _, _ => false))
  | _, _ => false

/-- The order of a pair (a, b) in the numbers that the comparator reads. -/
def InListOrder (parseInt parseDate : String → Option Int) (a b : Incident) : Prop :=
  inListOrder parseInt parseDate a b = true

instance (parseInt parseDate : String → Option Int) :
    DecidableRel (InListOrder parseInt parseDate) :=
  fun a b => inferInstanceAs (Decidable (inListOrder parseInt parseDate a b = true))

/-- The same order on the numbers with 0 in place of a missing value; it is total and
transitive on all incidents. -/
def KeyLe (parseInt parseDate : String → Option Int) (a b : Incident) : Prop :=
  (priorityNumber parseInt a).getD 0 < (priorityNumber parseInt b).getD 0 ∨
    ((priorityNumber parseInt a).getD 0 = (priorityNumber parseInt b).getD 0 ∧
      (openedTime parseDate b).getD 0 ≤ (openedTime parseDate a).getD 0)

instance (parseInt parseDate : String → Option Int) :
    DecidableRel (KeyLe parseInt parseDate) :=
  fun a b => inferInstanceAs (Decidable
    ((priorityNumber parseInt a).getD 0 < (priorityNumber parseInt b).getD 0 ∨
      ((priorityNumber parseInt a).getD 0 = (priorityNumber parseInt b).getD 0 ∧
        (openedTime parseDate b).getD 0 ≤ (openedTime parseDate a).getD 0)))

/-- A reader of date texts that takes the digits of the text as one number, used to
instantiate the platform parameter for texts of the form yyyy-MM-dd HH:mm:ss. -/
def parseStamp (s : String) : Option Int :=
  (parseDigits (s.data.filter Char.isDigit)).map Int.ofNat

/-! ## IncidentService.js: getStateLabel and the query of listActiveIncidents -/

/-- What reading a property of an object literal with text values yields: a text, or a
member inherited from Object.prototype (a function or object, which is truthy). -/
inductive Looked where
  | text (s : String) : Looked
  | inherited (name : String) : Looked
  deriving DecidableEq, Repr

/-- The property names that every object literal inherits from Object.prototype. -/
def objectPrototypeNames : List String :=
  ["constructor", "hasOwnProperty", "isPrototypeOf", "propertyIsEnumerable",
   "toLocaleString", "toString", "valueOf", "__proto__", "__defineGetter__",
   "__defineSetter__", "__lookupGetter__", "__lookupSetter__"]

/-- The read `literal[key]`: the own property if there is one, else the inherited
member if the key names one, else undefined (no value). -/
def readProperty (own : List (String × String)) (key : String) : Option Looked :=
  match own.lookup key with
  | some v => some (.text v)
  | none => if key ∈ objectPrototypeNames then some (.inherited key) else none

/-- The labels object of getStateLabel. -/
def stateLabels : List (String × String) :=
  [("1", "New"), ("2", "In Progress"), ("3", "On Hold")]

/-- The method getStateLabel (IncidentService.js, lines 187-195):
`labels[String(stateValue)] || 'Unknown'`. -/
def getStateLabel (state : Field) : Looked :=
  let stateValue := state.value
  match readProperty stateLabels (jsString stateValue) with
  | some (.text v) => if v ≠ "" then .text v else .text "Unknown"
  | some (.inherited n) => .inherited n
  | none => .text "Unknown"

/-- The filters argument of listActiveIncidents; a property that is not passed is
undefined (for the two arrays: no value). -/
structure QueryFilters where
  location : Scalar
  search : Scalar
  priority : Option (List String)
  state : Option (List String)
  dateFrom : Scalar
  dateTo : Scalar
  deriving DecidableEq, Repr

/-- The field activeStates set by the constructor. -/
def activeStates : List String := ["1", "2", "3"]

/-- The method `xs.join(',')`. -/
def joinComma (xs : List String) : String :=
  ",".intercalate xs

/-- The query after lines 20-35 of IncidentService.js: the active-state clause and the
clauses of the location, search and priority filters. -/
def queryBeforeState (filters : QueryFilters) : String :=
  let query := "stateIN" ++ joinComma activeStates
  let query :=
    if filters.location.truthy then query ++ "^location=" ++ jsString filters.location
    else query
  let query :=
    if filters.search.truthy then
      query ++ "^short_descriptionLIKE" ++ jsString filters.search ++ "^ORnumberLIKE" ++
        jsString filters.search
    else query
  let query :=
    match filters.priority with
    | some priority =>
      if priority.length > 0 then query ++ "^priorityIN" ++ joinComma priority else query
    | none => query
  query

/-- The value of sysparm_query built by listActiveIncidents (IncidentService.js,
lines 20-53). -/
def listActiveIncidentsQuery (filters : QueryFilters) : String :=
  let query := queryBeforeState filters
  let query :=
    match filters.state with
    | some state =>
      if state.length > 0 then
        let activeStateFilter := state.filter (fun s => activeStates.contains s)
        if activeStateFilter.length > 0 then query ++ "^stateIN" ++ joinComma activeStateFilter
        else query
      else query
    | none => query
  let query :=
    if filters.dateFrom.truthy then query ++ "^opened_at>=" ++ jsString filters.dateFrom
    else query
  let query :=
    if filters.dateTo.truthy then query ++ "^opened_at<=" ++ jsString filters.dateTo
    else query
  query

/-- The call `listActiveIncidents()` without an argument: `filters = {}`. -/
def noQueryFilters : QueryFilters :=
  { location := .undefined, search := .undefined, priority := none, state := none,
    dateFrom := .undefined, dateTo := .undefined }

/-- The state values that the state filter of a filters argument keeps. -/
def keptStates (filters : QueryFilters) : List String :=
  (filters.state.getD []).filter (fun s => decide (s ∈ ["1", "2", "3"]))

/-- The clause of the state filter for the kept values: none when no value is kept. -/
def stateFilterClause (kept : List String) : String :=
  if kept = [] then "" else "^stateIN" ++ ",".intercalate kept

/-- The clauses of the date filters. -/
def dateClauses (filters : QueryFilters) : String :=
  (if filters.dateFrom.truthy then "^opened_at>=" ++ jsString filters.dateFrom else "") ++
    (if filters.dateTo.truthy then "^opened_at<=" ++ jsString filters.dateTo else "")

/-- A text is empty or begins with the clause separator. -/
def StartsNewClause (s : String) : Prop :=
  s = "" ∨ ∃ rest : String, s = "^" ++ rest

/-- The clause of the location filter (line 24), empty when the filter is not set. -/
def locationClause (filters : QueryFilters) : String :=
  if filters.location.truthy then "^location=" ++ jsString filters.location else ""

/-- The clause of the text search filter (line 29), empty when the filter is not set. -/
def searchClause (filters : QueryFilters) : String :=
  if filters.search.truthy then
    "^short_descriptionLIKE" ++ jsString filters.search ++ "^ORnumberLIKE" ++
      jsString filters.search
  else ""

/-- The clause of the priority filter (line 34), empty when the filter is not set. -/
def priorityClause (filters : QueryFilters) : String :=
  match filters.priority with
  | some priority => if priority.length > 0 then "^priorityIN" ++ joinComma priority else ""
  | none => ""

/-! ## Map bounds: filterIncidentsByMapBounds and the state of App -/

/-- A corner of the map bounds, an object with the properties lat and lng. -/
structure LatLng (Num : Type) where
  lat : Num
  lng : Num
  deriving DecidableEq, Repr

/-- A bounds argument: an object whose methods getNorthEast and getSouthWest, where it
has them, return a corner (no value: the object lacks the method). -/
structure Bounds (Num : Type) where
  getNorthEast : Option (LatLng Num)
  getSouthWest : Option (LatLng Num)
  deriving DecidableEq, Repr

set_option linter.unusedVariables false in
/-- The method filterIncidentsByMapBounds (IncidentService.js, lines 152-167); no bounds
stands for a null or undefined argument. The callback of the filter computes
locationSysId and returns true. -/
def filterIncidentsByMapBounds {Num : Type} (incidents : List Incident)
    (bounds : Option (Bounds Num)) : List Incident :=
  match bounds with
  | none => incidents
  | some b =>
    match b.getNorthEast, b.getSouthWest with
    | some ne, some sw =>
      incidents.filter (fun incident =>
        let locationSysId := incident.location.value
        true)
    | _, _ => incidents

/-- The position of an incident on the map: the position of its marker, if it has one. -/
def incidentPosition {Num : Type} (parseFloat : String → Option Num)
    (locations : List Location) (incident : Incident) : Option (Num × Num) :=
  (markerOf parseFloat locations incident).map (fun m => m.position)

/-- A position lies between the south-west and the north-east corner. -/
def insideBounds (sw ne : LatLng Int) (p : Int × Int) : Bool :=
  decide (sw.lat ≤ p.1) && decide (p.1 ≤ ne.lat) && decide (sw.lng ≤ p.2) &&
    decide (p.2 ≤ ne.lng)

/-- An incident is located within the bounds: its location resolves to coordinates that
lie between the south-west and north-east corners. -/
def LocatedInside (parseFloat : String → Option Int) (locations : List Location)
    (sw ne : LatLng Int) (incident : Incident) : Prop :=
  match incidentPosition parseFloat locations incident with
  | some p => insideBounds sw ne p = true
  | none => False

instance (parseFloat : String → Option Int) (locations : List Location)
    (sw ne : LatLng Int) (incident : Incident) :
    Decidable (LocatedInside parseFloat locations sw ne incident) :=
  match h : incidentPosition parseFloat locations incident with
  | some p => decidable_of_iff (insideBounds sw ne p = true) (by simp [LocatedInside, h])
  | none => isFalse (by simp [LocatedInside, h])

/-- Map bounds around the north-east of the United States: they contain the position
(40, -74) of sample location A and not the position (34, -118) of sample location B. -/
def sampleBounds : Bounds Int :=
  { getNorthEast := some { lat := 45, lng := -70 },
    getSouthWest := some { lat := 35, lng := -80 } }

/-! ## app.jsx: the state of App, its handlers and what it renders -/

/-- The state of App: the values held by its useState hooks. No error is the value
null of error, no bounds the value null of mapBounds. -/
structure AppState where
  allIncidents : List Incident
  locations : List Location
  loading : Bool
  error : Option String
  filters : FilterState
  mapAreaFilterActive : Bool
  mapBounds : Option (Bounds Int)
  deriving DecidableEq, Repr

/-- The initial values of the useState hooks (app.jsx, lines 12-26). -/
def initialAppState : AppState :=
  { allIncidents := [], locations := [], loading := true, error := none,
    filters := defaultFilters, mapAreaFilterActive := false, mapBounds := none }

/-- The callback handleFiltersChange (app.jsx, lines 95-97). -/
def App.handleFiltersChange (st : AppState) (newFilters : FilterState) : AppState :=
  { st with filters := newFilters }

/-- The callback handleMapAreaToggle (app.jsx, lines 100-102). -/
def App.handleMapAreaToggle (st : AppState) : AppState :=
  { st with mapAreaFilterActive := !st.mapAreaFilterActive }

/-- The callback handleMapBoundsChange (app.jsx, lines 105-107). -/
def App.handleMapBoundsChange (st : AppState) (bounds : Bounds Int) : AppState :=
  { st with mapBounds := some bounds }

/-- The callback handleClearAll of App (app.jsx, lines 110-119). -/
def App.handleClearAll (st : AppState) : AppState :=
  { st with
    filters := { search := "", priority := [], state := [], dateFrom := "", dateTo := "" },
    mapAreaFilterActive := false }

/-- The props that App passes to FilterBar, without the callbacks. -/
structure FilterBarProps where
  totalIncidents : Nat
  visibleIncidents : Nat
  mapAreaFilterActive : Bool
  deriving DecidableEq, Repr

/-- What App renders in its main branch: the props of FilterBar and the incidents and
locations given to IncidentMap and to IncidentList. -/
structure MainView where
  filterBar : FilterBarProps
  mapIncidents : List Incident
  mapLocations : List Location
  listIncidents : List Incident
  listLocations : List Location
  deriving DecidableEq, Repr

/-- The three branches of the render of App. -/
inductive AppView where
  | loadingState : AppView
  | errorState (message : String) : AppView
  | main (view : MainView) : AppView
  deriving DecidableEq, Repr

/-- The main branch of the render of App (app.jsx, lines 146-182). -/
def App.mainView (toLowerCase : String → String) (st : AppState) : MainView :=
  let filteredIncidents := filteredIncidents toLowerCase st.allIncidents st.filters
  { filterBar :=
      { totalIncidents := filteredIncidents.length,
        visibleIncidents := filteredIncidents.length,
        mapAreaFilterActive := st.mapAreaFilterActive },
    mapIncidents := filteredIncidents,
    mapLocations := st.locations,
    listIncidents := filteredIncidents,
    listLocations := st.locations }

/-- The render of App (app.jsx, lines 121-182): the loading branch, the error branch for
a truthy error, else the main branch. -/
def App.render (toLowerCase : String → String) (st : AppState) : AppView :=
  if st.loading then .loadingState
  else
    match st.error with
    | some message => if message ≠ "" then .errorState message else .main (App.mainView toLowerCase st)
    | none => .main (App.mainView toLowerCase st)

/-- The text of the results line of FilterBar (FilterBar.jsx, lines 221-226). -/
def resultCount (props : FilterBarProps) : String :=
  "Showing " ++ toString props.visibleIncidents ++ " of " ++ toString props.totalIncidents ++
    " active incidents" ++ (if props.mapAreaFilterActive then " â€¢ In map view" else "")

/-- A state of App after loading the sample incidents A and B and their locations, with
the Map Area filter switched on and the map bounds reported by the map. -/
def sampleMapAreaState : AppState :=
  App.handleMapBoundsChange
    (App.handleMapAreaToggle
      { initialAppState with
        allIncidents := [sampleIncidentA, sampleIncidentB],
        locations := [sampleLocationA, sampleLocationB],
        loading := false })
    sampleBounds

/-- A state of App after loading the sample incidents A and B, with the search text
EMAIL reported by FilterBar. -/
def sampleSearchState : AppState :=
  App.handleFiltersChange
    { initialAppState with
      allIncidents := [sampleIncidentA, sampleIncidentB],
      locations := [sampleLocationA, sampleLocationB],
      loading := false }
    { defaultFilters with search := "EMAIL" }

/-! ## FilterBar.jsx: local state, the notification of App, Clear All -/

/-- The filter inputs held by the useState hooks of FilterBar (FilterBar.jsx,
lines 13-17). -/
structure FilterBarState where
  searchText : String
  selectedPriorities : List String
  selectedStates : List String
  dateFrom : String
  dateTo : String
  deriving DecidableEq, Repr

/-- The filters object built by the effect that notifies the parent (FilterBar.jsx,
lines 38-44). -/
def FilterBar.filters (bar : FilterBarState) : FilterState :=
  { search := bar.searchText,
    priority := bar.selectedPriorities,
    state := bar.selectedStates,
    dateFrom := bar.dateFrom,
    dateTo := bar.dateTo }

/-- The value activeFiltersCount (FilterBar.jsx, lines 113-114). -/
def activeFiltersCount (bar : FilterBarState) : Nat :=
  bar.selectedPriorities.length + bar.selectedStates.length +
    (if bar.searchText ≠ "" then 1 else 0) + (if bar.dateFrom ≠ "" then 1 else 0) +
    (if bar.dateTo ≠ "" then 1 else 0)

/-- The page: the state of App together with the local state of its FilterBar. -/
structure Page where
  app : AppState
  bar : FilterBarState
  deriving DecidableEq, Repr

/-- The effect of FilterBar that notifies the parent (FilterBar.jsx, lines 37-46): it
calls onFiltersChange, which is handleFiltersChange of App, with the current inputs. -/
def notifyParent (page : Page) : Page :=
  { page with app := App.handleFiltersChange page.app (FilterBar.filters page.bar) }

/-- A click on Clear All: handleClearAll of FilterBar (FilterBar.jsx, lines 64-71) sets
the five inputs to their empty values and calls onClearAll, which is handleClearAll of
App; the two selections are fresh arrays, so the inputs count as changed and after the
render the effect notifies the parent. -/
def FilterBar.handleClearAll (page : Page) : Page :=
  let bar : FilterBarState :=
    { searchText := "", selectedPriorities := [], selectedStates := [],
      dateFrom := "", dateTo := "" }
  let app := App.handleClearAll page.app
  notifyParent { app := app, bar := bar }

/-- A page with two loaded incidents, a search text, one selected priority, a date and the
Map Area filter switched on. -/
def samplePage : Page :=
  { app :=
      { sampleMapAreaState with
        filters := { search := "email", priority := ["1"], state := [],
                     dateFrom := "2024-01-01", dateTo := "" } },
    bar := { searchText := "email", selectedPriorities := ["1"], selectedStates := [],
             dateFrom := "2024-01-01", dateTo := "" } }

/-! ## app.jsx: loadData -/

/-- The function loadData of the initial effect (app.jsx, lines 69-89), given the outcome
of the two awaited calls: the fetched list, or the message of the error that was
thrown. The second call is only made when the first one returned; a fetched list is an
array, so `incidentData || []` is the list itself. -/
def loadData (st : AppState) (incidentFetch : Except String (List Incident))
    (locationFetch : Except String (List Location)) : AppState :=
  let st := { st with loading := true }
  let st :=
    match incidentFetch with
    | .ok incidentData =>
      match locationFetch with
      | .ok locationData =>
        { st with allIncidents := incidentData, locations := locationData, error := none }
      | .error message =>
        { st with error := some ("Failed to load active incident data: " ++ message) }
    | .error message =>
      { st with error := some ("Failed to load active incident data: " ++ message) }
  { st with loading := false }

/-! ## IncidentService.js: listActiveIncidentLocations -/

/-- The array locationIds (IncidentService.js, lines 83-87): the distinct truthy
normalized location references of the incidents. -/
def locationIds (incidents : List Incident) : List Scalar :=
  newSet ((incidents.map (fun incident =>
    let locationSysId := incident.location.value
    locationSysId)).filter Scalar.truthy)

/-- The text of an array element inside `join`: empty for undefined. -/
def joinText : Scalar → String
  | .undefined => ""
  | .str s => s

/-- The method `xs.join(',')` on an array of scalars. -/
def joinValues (xs : List Scalar) : String :=
  ",".intercalate (xs.map joinText)

/-- The value of sysparm_query of the location request (IncidentService.js, line 96). -/
def locationsQuery (locationIds : List Scalar) : String :=
  "sys_idIN" ++ joinValues locationIds ++ "^latitude!=NULL^longitude!=NULL"

/-- What a call of listActiveIncidentLocations does: the value it returns or the message
of the error it throws, and the queries of the requests it sent to the location table. -/
structure LocationsOutcome where
  result : Except String (List Location)
  locationRequests : List String
  deriving Repr

/-- The method listActiveIncidentLocations (IncidentService.js, lines 79-120), given the
outcome of its call of listActiveIncidents and the answer of the location table to a
query. -/
def listActiveIncidentLocations (incidentFetch : Except String (List Incident))
    (fetchLocations : String → Except String (List Location)) : LocationsOutcome :=
  match incidentFetch with
  | .error message => { result := .error message, locationRequests := [] }
  | .ok incidents =>
    let locationIds := locationIds incidents
    if locationIds.length = 0 then { result := .ok [], locationRequests := [] }
    else
      let query := locationsQuery locationIds
      { result := fetchLocations query, locationRequests := [query] }

/-- The normalized location references of the incidents, in the order of the incidents. -/
def locationReferences (incidents : List Incident) : List Scalar :=
  incidents.map (fun incident => incident.location.value)

/-- A location table that answers every query with the two sample locations. -/
def sampleLocationTable (_query : String) : Except String (List Location) :=
  .ok [sampleLocationA, sampleLocationB]

/-- Sample incident A without a location reference. -/
def sampleIncidentNoLocation : Incident :=
  { sampleIncidentA with location := pairOf "" "" }

/-! ## IncidentMap.jsx: the popup of a location group -/

/-- What the popup of a group shows (IncidentMap.jsx, lines 232-286): the count and text
of the badge in the header, the incidents that are listed, and the line about further
incidents, when there is one, as the number it shows and its text. -/
structure PopupView (Num : Type) where
  incidentCount : Nat
  badge : String
  listed : List (Marker Num)
  more : Option (Nat × String)
  deriving DecidableEq, Repr

/-- The popup rendered for a group: `group.incidents.slice(0, 5)` is listed, and for
`incidentCount > 5` the line with `incidentCount - 5` follows. -/
def popupView {Num : Type} (group : Group Num) : PopupView Num :=
  let incidentCount := group.incidents.length
  { incidentCount := incidentCount,
    badge := toString incidentCount ++ " incident" ++ (if incidentCount ≠ 1 then "s" else ""),
    listed := group.incidents.take 5,
    more :=
      if incidentCount > 5 then
        some (incidentCount - 5,
          "... and " ++ toString (incidentCount - 5) ++ " more incident" ++
            (if incidentCount - 5 ≠ 1 then "s" else ""))
      else none }

/-- A group of seven markers at the position of sample location A. -/
def sampleGroupOfSeven : Group Int :=
  { position := (40, -74), location := sampleLocationA,
    incidents := [sampleMarkerA, sampleMarkerC, sampleMarkerA, sampleMarkerC, sampleMarkerA,
      sampleMarkerC, sampleMarkerA] }

/-- The latitudes and longitudes that occur in the positions of a list of markers. -/
def markerCoordinates {Num : Type} (markers : List (Marker Num)) : List Num :=
  markers.flatMap (fun m => [m.position.1, m.position.2])

/-- A numeral: a non-empty text of decimal digits, the form of a state code. -/
def IsNumeral (s : String) : Prop :=
  s.data ≠ [] ∧ s.data.all Char.isDigit = true

instance (s : String) : Decidable (IsNumeral s) :=
  inferInstanceAs (Decidable (s.data ≠ [] ∧ s.data.all Char.isDigit = true))

/-! ## Encoded queries: clauses and what a query admits -/

/-- A list of characters cut at every occurrence of a separator. -/
def splitChars (sep : Char) : List Char → List (List Char)
  | [] => [[]]
  | c :: cs =>
    if c = sep then [] :: splitChars sep cs
    else
      match splitChars sep cs with
      | [] => [[c]]
      | w :: ws => (c :: w) :: ws

/-- The rest of a text after a given beginning, if it begins so. -/
def dropLeading : List Char → List Char → Option (List Char)
  | [], l => some l
  | _ :: _, [] => none
  | p :: ps, c :: cs => if p = c then dropLeading ps cs else none

/-- The clauses of an encoded query: the pieces between the separators ^. -/
def queryClauses (query : String) : List String :=
  (splitChars '^' query.data).map String.mk

/-- A condition of an encoded query on a record with the given state: a condition
stateIN followed by values holds when the state is one of the values; what a condition
on another column gives is left to `other`. -/
def conditionHolds (other : String → Bool) (state : String) (condition : List Char) : Bool :=
  match dropLeading "stateIN".data condition with
  | some values => (splitChars ',' values).contains state.data
  | none => other (String.mk condition)

/-- The running evaluation of an encoded query: whether an earlier query admitted the
record, whether the conditions of the current query held so far, and whether the
current condition or one of its alternatives holds. -/
structure QueryEval where
  admitted : Bool
  soFar : Bool
  current : Bool
  deriving DecidableEq, Repr

/-- One clause of an encoded query, by the operators of the Table API: a clause that
begins with NQ starts a new query, a clause that begins with OR adds an alternative to
the condition before it, any other clause adds a condition that must hold as well. -/
def evalClause (other : String → Bool) (state : String) (e : QueryEval)
    (clause : List Char) : QueryEval :=
  match dropLeading "NQ".data clause with
  | some condition =>
    { admitted := e.admitted || (e.soFar && e.current), soFar := true,
      current := conditionHolds other state condition }
  | none =>
    match dropLeading "OR".data clause with
    | some condition => { e with current := e.current || conditionHolds other state condition }
    | none =>
      { e with soFar := e.soFar && e.current,
               current := conditionHolds other state clause }

/-- An encoded query admits a record with the given state: one of its queries has all
its conditions, each with its alternatives, holding. -/
def admitsState (other : String → Bool) (query : String) (state : String) : Bool :=
  let e := (splitChars '^' query.data).foldl (evalClause other state)
    { admitted := false, soFar := true, current := true }
  e.admitted || (e.soFar && e.current)

/-- The filters argument with only a search text, one that contains the separator and
the new-query operator. -/
def searchWithNewQuery : QueryFilters :=
  { noQueryFilters with search := .str "x^NQstateIN6,7" }

/-! ## The list order in the terms of the data model -/

/-- The priority codes of the data model with their numbers (1 is Critical). -/
def priorityCodes : List (String × Int) :=
  [("1", 1), ("2", 2), ("3", 3), ("4", 4), ("5", 5)]

/-- The priority number of an incident: the number of its normalized priority code. -/
def priorityCode (i : Incident) : Option Int :=
  priorityCodes.lookup (jsString i.priority.value)

/-- A timestamp of the form yyyy-MM-dd HH:mm:ss, as the Table API writes values, read
as the number yyyyMMddHHmmss; a later timestamp has the larger number. -/
def timestampOf (s : String) : Option Int :=
  match s.data with
  | [y1, y2, y3, y4, '-', m1, m2, '-', d1, d2, ' ', h1, h2, ':', n1, n2, ':', s1, s2] =>
    (parseDigits [y1, y2, y3, y4, m1, m2, d1, d2, h1, h2, n1, n2, s1, s2]).map Int.ofNat
  | _ => none

/-- The opened timestamp of an incident: the timestamp in the value of opened_at. -/
def openedStamp (i : Incident) : Option Int :=
  timestampOf (jsString i.opened_at.value)

/-- The test x <= y on two numbers that may be missing; false when one is missing. -/
def leOpt : Option Int → Option Int → Bool
  | some x, some y => decide (x ≤ y)
  | _, _ => false

/-- The order required of an adjacent pair (a, b) of the list view, as a test on the
priority codes and the opened timestamps: priority(a) < priority(b), or the priorities
are equal and opened(a) >= opened(b). -/
def inOpenedOrder (a b : Incident) : Bool :=
  match priorityCode a, priorityCode b with
  | some pa, some pb =>
    decide (pa < pb) ||
      (decide (pa = pb) &&
        (match openedStamp a, openedStamp b with
          | some ta, some tb => decide (ta ≥ tb)
          | _, _ => false))
  | _, _ => false

/-- The order required of an adjacent pair (a, b) of the list view. -/
def InOpenedOrder (a b : Incident) : Prop :=
  inOpenedOrder a b = true

instance : DecidableRel InOpenedOrder :=
  fun a b => inferInstanceAs (Decidable (inOpenedOrder a b = true))

/-- An incident of priority 2 opened on 2024-05-01; the display value of opened_at shows
the time two hours later than the value, as for a user in another time zone. -/
def sampleListModerate : Incident :=
  { sampleIncidentA with
    priority := pairOf "2" "2 - High",
    opened_at := pairOf "2024-05-01 10:00:00" "2024-05-01 12:00:00" }

/-- An incident of priority 1 opened on 2024-03-01. -/
def sampleListOlder : Incident :=
  { sampleIncidentB with
    opened_at := pairOf "2024-03-01 08:00:00" "2024-03-01 10:00:00" }

/-- An incident of priority 1 opened on 2024-06-01. -/
def sampleListNewer : Incident :=
  { sampleIncidentC with
    opened_at := pairOf "2024-06-01 09:30:00" "2024-06-01 11:30:00" }

/-! ## The platform function parseFloat -/

/-- A number read by parseFloat: the exact decimal value numerator / 10^decimals, in
lowest decimal form, or an infinity. The rounding of the value to a double is not
part of the model, and 0 and -0 are one number. -/
inductive JsNumber where
  | finite (numerator : Int) (decimals : Nat) : JsNumber
  | infinity (negative : Bool) : JsNumber
  deriving DecidableEq, Repr

/-- White space and line terminators, which parseFloat skips at the start of a text. -/
def isWhiteSpace (c : Char) : Bool :=
  c.toNat ∈ [0x9, 0xA, 0xB, 0xC, 0xD, 0x20, 0xA0, 0x1680, 0x2028, 0x2029, 0x202F, 0x205F,
    0x3000, 0xFEFF] || (decide (0x2000 ≤ c.toNat) && decide (c.toNat ≤ 0x200A))

/-- The value of a run of decimal digits, 0 for the empty run. -/
def digitsValue (ds : List Char) : Nat :=
  ds.foldl (fun n c => 10 * n + (c.toNat - 48)) 0

/-- Lowest decimal form: trailing zeros after the decimal point are dropped. -/
def lowestDecimal : Nat → Nat → Nat × Nat
  | n, 0 => (n, 0)
  | n, d + 1 => if n % 10 = 0 then lowestDecimal (n / 10) d else (n, d + 1)

/-- The number with the given sign, digits before and after the decimal point and
exponent of ten. -/
def decimalNumber (negative : Bool) (whole fraction : List Char) (exponent : Int) :
    JsNumber :=
  let digits := digitsValue (whole ++ fraction)
  let shift : Int := exponent - Int.ofNat fraction.length
  let form : Nat × Nat :=
    if 0 ≤ shift then (digits * 10 ^ shift.toNat, 0)
    else lowestDecimal digits (-shift).toNat
  .finite (if negative then -(Int.ofNat form.1) else Int.ofNat form.1) form.2

/-- The exponent part at the start of a text, e or E with an optional sign and at
least one digit: its value and the rest of the text; without such a part the exponent
is 0 and nothing is consumed. -/
def scanExponent (cs : List Char) : Int × List Char :=
  match cs with
  | e :: rest =>
    if e = 'e' ∨ e = 'E' then
      match rest with
      | '-' :: ds =>
        if (ds.takeWhile Char.isDigit) ≠ [] then
          (-(Int.ofNat (digitsValue (ds.takeWhile Char.isDigit))), ds.dropWhile Char.isDigit)
        else (0, cs)
      | '+' :: ds =>
        if (ds.takeWhile Char.isDigit) ≠ [] then
          (Int.ofNat (digitsValue (ds.takeWhile Char.isDigit)), ds.dropWhile Char.isDigit)
        else (0, cs)
      | ds =>
        if (ds.takeWhile Char.isDigit) ≠ [] then
          (Int.ofNat (digitsValue (ds.takeWhile Char.isDigit)), ds.dropWhile Char.isDigit)
        else (0, cs)
    else (0, cs)
  | [] => (0, cs)

/-- The longest unsigned decimal literal at the start of a text (Infinity, digits with an
optional fraction and exponent, or a fraction that starts with the point), with the rest
of the text; nothing when the text starts with no such literal. -/
def scanUnsigned (negative : Bool) (cs : List Char) : Option (JsNumber × List Char) :=
  match dropLeading "Infinity".data cs with
  | some rest => some (.infinity negative, rest)
  | none =>
    let whole := cs.takeWhile Char.isDigit
    let afterWhole := cs.dropWhile Char.isDigit
    match afterWhole with
    | '.' :: afterPoint =>
      let fraction := afterPoint.takeWhile Char.isDigit
      let afterFraction := afterPoint.dropWhile Char.isDigit
      if whole = [] ∧ fraction = [] then none
      else
        let ex := scanExponent afterFraction
        some (decimalNumber negative whole fraction ex.1, ex.2)
    | _ =>
      if whole = [] then none
      else
        let ex := scanExponent afterWhole
        some (decimalNumber negative whole [] ex.1, ex.2)

/-- The longest decimal literal, with an optional sign, at the start of a text. -/
def scanNumber (cs : List Char) : Option (JsNumber × List Char) :=
  match cs with
  | '-' :: rest => scanUnsigned true rest
  | '+' :: rest => scanUnsigned false rest
  | _ => scanUnsigned false cs

/-- The platform function parseFloat on a text: leading white space is skipped and the
longest decimal literal at the start is read; no value stands for NaN. -/
def jsParseFloat (s : String) : Option JsNumber :=
  (scanNumber (s.data.dropWhile isWhiteSpace)).map Prod.fst

/-- A numeric text: apart from leading white space the whole text is a decimal literal. -/
def IsNumericText (s : String) : Prop :=
  (scanNumber (s.data.dropWhile isWhiteSpace)).map Prod.snd = some []

instance (s : String) : Decidable (IsNumericText s) :=
  inferInstanceAs (Decidable ((scanNumber (s.data.dropWhile isWhiteSpace)).map Prod.snd = some []))

/-- Sample location A with the latitude text 40abc. -/
def sampleLocationOdd : Location :=
  { sampleLocationA with latitude := pairOf "40abc" "40abc" }

/-- Sample location A with decimal coordinates. -/
def sampleLocationDecimal : Location :=
  { sampleLocationA with
    latitude := pairOf "40.7128" "40.7128", longitude := pairOf "-74.0060" "-74.0060" }

/-- Sample location A with a latitude that is not a number and does not start with one. -/
def sampleLocationUnknown : Location :=
  { sampleLocationA with latitude := pairOf "n/a" "n/a" }

/-! ## Helper lemmas -/

theorem includes_iff (s sub : String) : includes s sub = true ↔ sub.data <:+: s.data := by
  simp [includes]

theorem data_eq_nil_iff (s : String) : s.data = [] ↔ s = "" := by
  constructor
  · intro h
    cases s
    simp_all
  · intro h
    subst h
    rfl

theorem asciiLower_eq_empty (s : String) : asciiLower s = "" ↔ s = "" := by
  rw [← data_eq_nil_iff, ← data_eq_nil_iff s]
  simp [asciiLower]

theorem andThen_iff (x : Scalar) (k : String → Bool) :
    x.andThen k = true ↔ ∃ s, x = .str s ∧ s ≠ "" ∧ k s = true := by
  cases x with
  | undefined => simp [Scalar.andThen]
  | str s =>
    by_cases h : s = ""
    · simp [Scalar.andThen, h]
    · simp [Scalar.andThen, h]

theorem searchCallback_iff (toLowerCase : String → String)
    (hlow : ∀ s, toLowerCase s = "" ↔ s = "") (filters : FilterState)
    (hs : filters.search ≠ "") (i : Incident) :
    searchCallback toLowerCase (toLowerCase filters.search) i = true ↔
      SearchOk toLowerCase filters i := by
  have hne : (toLowerCase filters.search).data ≠ [] := by
    rw [Ne, data_eq_nil_iff, hlow]
    exact hs
  have key : ∀ n : String, (toLowerCase filters.search).data <:+: (toLowerCase n).data →
      n ≠ "" := by
    intro n hn hn0
    subst hn0
    have h0 : toLowerCase "" = "" := (hlow "").2 rfl
    rw [h0] at hn
    exact hne (List.eq_nil_of_infix_nil hn)
  simp only [searchCallback, Bool.or_eq_true, andThen_iff, includes_iff, SearchOk]
  constructor
  · rintro (⟨n, h1, _, h3⟩ | ⟨d, h1, _, h3⟩)
    · exact Or.inr (Or.inl ⟨n, h1, h3⟩)
    · exact Or.inr (Or.inr ⟨d, h1, h3⟩)
  · rintro (h | ⟨n, h1, h3⟩ | ⟨d, h1, h3⟩)
    · exact absurd h hs
    · exact Or.inl ⟨n, h1, key n h3, h3⟩
    · exact Or.inr ⟨d, h1, key d h3, h3⟩

theorem filter_or_self {α : Type} (c : Prop) [Decidable c] (p : α → Bool) (l : List α) :
    (if c then l.filter p else l) = l.filter (fun x => !(decide c) || p x) := by
  by_cases h : c <;> simp [h]

theorem filteredIncidents_eq_passes (toLowerCase : String → String)
    (allIncidents : List Incident) (filters : FilterState) :
    filteredIncidents toLowerCase allIncidents filters =
      allIncidents.filter (passes toLowerCase filters) := by
  unfold filteredIncidents
  dsimp only
  rw [filter_or_self (filters.search ≠ ""), filter_or_self (filters.priority.length > 0),
    filter_or_self (filters.state.length > 0), List.filter_filter, List.filter_filter]
  apply List.filter_congr
  intro x _
  by_cases h1 : filters.search = "" <;>
  by_cases h2 : filters.priority = [] <;>
  by_cases h3 : filters.state = [] <;>
  simp [h1, h2, h3, passes, List.length_pos, Bool.and_comm, Bool.and_left_comm]

theorem passesFilter_iff (toLowerCase : String → String) (filters : FilterState)
    (i : Incident) : PassesFilter toLowerCase filters i ↔ passes toLowerCase filters i = true := by
  unfold PassesFilter
  rw [filteredIncidents_eq_passes]
  by_cases h : passes toLowerCase filters i = true
  · simp [h]
  · simp [h]

theorem mem_foldl_setAdd (xs acc : List Scalar) (x : Scalar) :
    x ∈ xs.foldl setAdd acc ↔ x ∈ acc ∨ x ∈ xs := by
  induction xs generalizing acc with
  | nil => simp
  | cons y ys ih =>
    rw [List.foldl_cons, ih]
    unfold setAdd
    by_cases hy : y ∈ acc
    · simp only [hy, if_true, List.mem_cons]
      constructor
      · rintro (h | h)
        · exact Or.inl h
        · exact Or.inr (Or.inr h)
      · rintro (h | h | h)
        · exact Or.inl h
        · subst h
          exact Or.inl hy
        · exact Or.inr h
    · simp only [hy, if_false, List.mem_append, List.mem_singleton, List.mem_cons]
      tauto

theorem nodup_foldl_setAdd (xs acc : List Scalar) (h : acc.Nodup) :
    (xs.foldl setAdd acc).Nodup := by
  induction xs generalizing acc with
  | nil => simpa using h
  | cons y ys ih =>
    rw [List.foldl_cons]
    apply ih
    unfold setAdd
    by_cases hy : y ∈ acc
    · simpa [hy] using h
    · simp only [hy, if_false]
      rw [List.nodup_append]
      refine ⟨h, List.nodup_singleton y, ?_⟩
      intro a ha hb
      rw [List.mem_singleton] at hb
      subst hb
      exact hy ha

theorem mem_newSet (xs : List Scalar) (x : Scalar) : x ∈ newSet xs ↔ x ∈ xs := by
  simp [newSet, mem_foldl_setAdd]

theorem nodup_newSet (xs : List Scalar) : (newSet xs).Nodup :=
  nodup_foldl_setAdd xs [] List.nodup_nil

instance sortCompareLe_total : IsTotal Scalar (fun a b => sortCompareLe a b = true) where
  total a b := by
    cases a <;> cases b <;> simp [sortCompareLe]
    exact le_total _ _

instance sortCompareLe_trans : IsTrans Scalar (fun a b => sortCompareLe a b = true) where
  trans a b c := by
    cases a <;> cases b <;> cases c <;> simp [sortCompareLe]
    exact le_trans

theorem defaultSort_perm (xs : List Scalar) : (defaultSort xs).Perm xs :=
  List.perm_insertionSort _ xs

theorem defaultSort_sorted (xs : List Scalar) :
    (defaultSort xs).Sorted (fun a b => sortCompareLe a b = true) :=
  List.sorted_insertionSort _ xs

theorem defaultSort_ascending (xs : List Scalar) (h : ∀ x ∈ xs, x.truthy = true) :
    (defaultSort xs).Pairwise TextAscending := by
  refine List.Pairwise.imp_of_mem ?_ (defaultSort_sorted xs)
  intro a b ha hb hab
  have ha2 := h a ((defaultSort_perm xs).mem_iff.1 ha)
  have hb2 := h b ((defaultSort_perm xs).mem_iff.1 hb)
  cases a <;> cases b <;> simp_all [Scalar.truthy, sortCompareLe, TextAscending, jsString]

/-- The facet of a column: sorted distinct truthy values. -/
theorem facet_spec (xs : List Scalar) :
    (∀ v, v ∈ defaultSort (newSet (xs.filter Scalar.truthy)) ↔ (v.truthy = true ∧ v ∈ xs)) ∧
    (defaultSort (newSet (xs.filter Scalar.truthy))).Nodup ∧
    (defaultSort (newSet (xs.filter Scalar.truthy))).Pairwise TextAscending := by
  refine ⟨?_, ?_, ?_⟩
  · intro v
    rw [(defaultSort_perm _).mem_iff, mem_newSet, List.mem_filter]
    tauto
  · rw [(defaultSort_perm _).nodup_iff]
    exact nodup_newSet _
  · apply defaultSort_ascending
    intro x hx
    rw [mem_newSet, List.mem_filter] at hx
    exact hx.2

theorem keys_groupsPush {Num : Type} (key : String) (m : Marker Num)
    (gs : List (String × Group Num)) :
    (groupsPush key m gs).map Prod.fst =
      if key ∈ gs.map Prod.fst then gs.map Prod.fst else gs.map Prod.fst ++ [key] := by
  induction gs with
  | nil => simp [groupsPush]
  | cons e rest ih =>
    obtain ⟨k, g⟩ := e
    by_cases hk : k = key
    · simp [groupsPush, hk]
    · have hk2 : ¬ key = k := fun h => hk h.symm
      by_cases hmem : key ∈ rest.map Prod.fst
      · simp only [groupsPush, hk, if_false, List.map_cons, ih, hmem, if_true, List.mem_cons,
          or_true]
      · simp only [groupsPush, hk, if_false, List.map_cons, ih, hmem, List.mem_cons, hk2,
          or_self, List.cons_append]

theorem nodup_keys_groupsPush {Num : Type} (key : String) (m : Marker Num)
    (gs : List (String × Group Num)) (h : (gs.map Prod.fst).Nodup) :
    ((groupsPush key m gs).map Prod.fst).Nodup := by
  rw [keys_groupsPush]
  by_cases hmem : key ∈ gs.map Prod.fst
  · simpa [hmem] using h
  · simp only [hmem, if_false]
    rw [List.nodup_append]
    refine ⟨h, List.nodup_singleton key, ?_⟩
    intro a ha hb
    rw [List.mem_singleton] at hb
    subst hb
    exact hmem ha

theorem entryOk_groupsPush {Num : Type} (numToString : Num → String) (m : Marker Num)
    (gs : List (String × Group Num)) (h : ∀ e ∈ gs, EntryOk numToString e) :
    ∀ e ∈ groupsPush (locationKey numToString m.position) m gs, EntryOk numToString e := by
  induction gs with
  | nil =>
    intro e he
    simp only [groupsPush, List.mem_singleton] at he
    subst he
    exact ⟨rfl, by simp, ⟨m, by simp, rfl⟩⟩
  | cons e0 rest ih =>
    obtain ⟨k, g⟩ := e0
    have h0 : EntryOk numToString (k, g) := h _ (List.mem_cons_self _ _)
    have hrest : ∀ e ∈ rest, EntryOk numToString e :=
      fun e he => h e (List.mem_cons_of_mem _ he)
    intro e he
    by_cases hk : k = locationKey numToString m.position
    · simp only [groupsPush, hk, if_true, List.mem_cons] at he
      rcases he with he | he
      · subst he
        obtain ⟨h1, h2, m0, hm0, hp⟩ := h0
        refine ⟨hk ▸ h1, ?_, ⟨m0, by simp [hm0], hp⟩⟩
        intro x hx
        simp only [List.mem_append, List.mem_singleton] at hx
        rcases hx with hx | hx
        · rw [h2 x hx, hk]
        · rw [hx]
      · exact hrest e he
    · simp only [groupsPush, hk, if_false, List.mem_cons] at he
      rcases he with he | he
      · subst he
        exact h0
      · exact ih hrest e he

theorem perm_groupsPush {Num : Type} (key : String) (m : Marker Num)
    (gs : List (String × Group Num)) :
    ((groupsPush key m gs).flatMap (fun e => e.2.incidents)).Perm
      (gs.flatMap (fun e => e.2.incidents) ++ [m]) := by
  induction gs with
  | nil => simp [groupsPush]
  | cons e rest ih =>
    obtain ⟨k, g⟩ := e
    by_cases hk : k = key
    · simp only [groupsPush, hk, if_true, List.flatMap_cons, List.append_assoc]
      exact List.Perm.append_left _ List.perm_append_comm
    · simp only [groupsPush, hk, if_false, List.flatMap_cons, List.append_assoc]
      exact List.Perm.append_left _ ih

theorem foldl_groupsPush_inv {Num : Type} (numToString : Num → String)
    (markers : List (Marker Num)) (gs : List (String × Group Num))
    (h1 : (gs.map Prod.fst).Nodup) (h2 : ∀ e ∈ gs, EntryOk numToString e) :
    ((markers.foldl (fun groups incident =>
          groupsPush (locationKey numToString incident.position) incident groups) gs).map
        Prod.fst).Nodup ∧
      (∀ e ∈ markers.foldl (fun groups incident =>
          groupsPush (locationKey numToString incident.position) incident groups) gs,
        EntryOk numToString e) ∧
      ((markers.foldl (fun groups incident =>
          groupsPush (locationKey numToString incident.position) incident groups) gs).flatMap
        (fun e => e.2.incidents)).Perm (gs.flatMap (fun e => e.2.incidents) ++ markers) := by
  induction markers generalizing gs with
  | nil => exact ⟨h1, h2, by simp⟩
  | cons m rest ih =>
    simp only [List.foldl_cons]
    obtain ⟨a, b, c⟩ := ih (groupsPush (locationKey numToString m.position) m gs)
      (nodup_keys_groupsPush _ m gs h1) (entryOk_groupsPush numToString m gs h2)
    refine ⟨a, b, c.trans ?_⟩
    have := (perm_groupsPush (locationKey numToString m.position) m gs).append_right rest
    simpa using this

theorem eq_of_key_eq {Num : Type} (gs : List (String × Group Num))
    (h : (gs.map Prod.fst).Nodup) (e1 e2 : String × Group Num) (h1 : e1 ∈ gs) (h2 : e2 ∈ gs)
    (hk : e1.1 = e2.1) : e1 = e2 :=
  List.inj_on_of_nodup_map h h1 h2 hk

theorem truthy_iff (x : Scalar) : x.truthy = true ↔ ∃ s, x = .str s ∧ s ≠ "" := by
  cases x <;> simp [Scalar.truthy]

theorem markerOf_eq_some {Num : Type} (parseFloat : String → Option Num)
    (locations : List Location) (incident : Incident) (m : Marker Num) :
    markerOf parseFloat locations incident = some m ↔
      ∃ location latText lngText a b,
        findLocation locations incident.location.value = some location ∧
        location.latitude.display_value = .str latText ∧ latText ≠ "" ∧
        location.longitude.display_value = .str lngText ∧ lngText ≠ "" ∧
        parseFloat latText = some a ∧ parseFloat lngText = some b ∧
        m = { incident := incident, position := (a, b), location := location } := by
  cases hf : findLocation locations incident.location.value with
  | none => simp [markerOf, hf]
  | some location =>
    cases hlat : location.latitude.display_value with
    | undefined => simp [markerOf, hf, hlat, Scalar.truthy]
    | str latText =>
      cases hlng : location.longitude.display_value with
      | undefined => simp [markerOf, hf, hlat, hlng, Scalar.truthy]
      | str lngText =>
        by_cases h1 : latText = ""
        · simp [markerOf, hf, hlat, hlng, Scalar.truthy, h1]
        by_cases h2 : lngText = ""
        · simp [markerOf, hf, hlat, hlng, Scalar.truthy, h2]
        cases ha : parseFloat latText with
        | none => simp [markerOf, hf, hlat, hlng, Scalar.truthy, h1, h2, jsString, ha]
        | some a =>
          cases hb : parseFloat lngText with
          | none => simp [markerOf, hf, hlat, hlng, Scalar.truthy, h1, h2, jsString, ha, hb]
          | some b =>
            have hcond : (!(latText != "") || !(lngText != "")) = false := by simp [h1, h2]
            simp only [markerOf, hf, hlat, hlng, Scalar.truthy, jsString, ha, hb, hcond,
              Bool.false_eq_true, if_false, Option.some.injEq]
            constructor
            · intro h
              exact ⟨location, latText, lngText, a, b, rfl, hlat, h1, hlng, h2, ha, hb, h.symm⟩
            · rintro ⟨l, s, t, x, y, e1, e2, -, e3, -, e4, e5, e6⟩
              cases e1
              rw [hlat] at e2
              rw [hlng] at e3
              cases e2
              cases e3
              rw [ha] at e4
              rw [hb] at e5
              cases e4
              cases e5
              exact e6.symm

theorem mem_incidentMarkers_iff {Num : Type} (parseFloat : String → Option Num)
    (incidents : List Incident) (locations : List Location) (m : Marker Num) :
    m ∈ incidentMarkers parseFloat incidents locations ↔
      ∃ i, i ∈ incidents ∧ ∃ location latText lngText a b,
        findLocation locations i.location.value = some location ∧
        location.latitude.display_value = .str latText ∧ latText ≠ "" ∧
        location.longitude.display_value = .str lngText ∧ lngText ≠ "" ∧
        parseFloat latText = some a ∧ parseFloat lngText = some b ∧
        m = { incident := i, position := (a, b), location := location } := by
  unfold incidentMarkers
  rw [List.mem_filterMap]
  constructor
  · rintro ⟨i, hi, h⟩
    exact ⟨i, hi, (markerOf_eq_some parseFloat locations i m).1 h⟩
  · rintro ⟨i, hi, h⟩
    exact ⟨i, hi, (markerOf_eq_some parseFloat locations i m).2 h⟩

theorem findLocation_eq_some (locations : List Location) (ref : Scalar) (location : Location)
    (h : findLocation locations ref = some location) :
    location.sys_id.value = ref ∧
      ∃ before after, locations = before ++ location :: after ∧
        ∀ l ∈ before, l.sys_id.value ≠ ref := by
  unfold findLocation at h
  rw [List.find?_eq_some] at h
  obtain ⟨h1, as, bs, h2, h3⟩ := h
  refine ⟨by simpa using h1, as, bs, h2, ?_⟩
  intro l hl
  simpa using h3 l hl

theorem orderedInsert_congr {α : Type} (r s : α → α → Prop) [DecidableRel r] [DecidableRel s]
    (a : α) (l : List α) (h : ∀ b ∈ l, (r a b ↔ s a b)) :
    l.orderedInsert r a = l.orderedInsert s a := by
  induction l with
  | nil => rfl
  | cons b l ih =>
    have hb : r a b ↔ s a b := h b (List.mem_cons_self _ _)
    have hl : ∀ c ∈ l, (r a c ↔ s a c) := fun c hc => h c (List.mem_cons_of_mem _ hc)
    by_cases hr : r a b
    · have hs : s a b := hb.1 hr
      simp [List.orderedInsert, hr, hs]
    · have hs : ¬ s a b := fun x => hr (hb.2 x)
      simp [List.orderedInsert, hr, hs, ih hl]

theorem insertionSort_congr {α : Type} (r s : α → α → Prop) [DecidableRel r] [DecidableRel s]
    (l : List α) (h : ∀ a ∈ l, ∀ b ∈ l, (r a b ↔ s a b)) :
    l.insertionSort r = l.insertionSort s := by
  induction l with
  | nil => rfl
  | cons a l ih =>
    have hl : ∀ x ∈ l, ∀ y ∈ l, (r x y ↔ s x y) :=
      fun x hx y hy => h x (List.mem_cons_of_mem _ hx) y (List.mem_cons_of_mem _ hy)
    simp only [List.insertionSort]
    rw [ih hl]
    apply orderedInsert_congr
    intro b hb
    have hb2 : b ∈ l := (List.perm_insertionSort s l).mem_iff.1 hb
    exact h a (List.mem_cons_self _ _) b (List.mem_cons_of_mem _ hb2)

instance keyLe_total (parseInt parseDate : String → Option Int) :
    IsTotal Incident (KeyLe parseInt parseDate) where
  total a b := by
    unfold KeyLe
    omega

instance keyLe_trans (parseInt parseDate : String → Option Int) :
    IsTrans Incident (KeyLe parseInt parseDate) where
  trans a b c := by
    unfold KeyLe
    omega

theorem compare_le_iff_keyLe (parseInt parseDate : String → Option Int) (a b : Incident)
    (ha : (priorityNumber parseInt a).isSome = true)
    (hb : (priorityNumber parseInt b).isSome = true)
    (hta : (openedTime parseDate a).isSome = true)
    (htb : (openedTime parseDate b).isSome = true)
    (hinj : priorityNumber parseInt a = priorityNumber parseInt b →
      a.priority.value = b.priority.value) :
    (compareIncidents parseInt parseDate a b).getD 0 ≤ 0 ↔ KeyLe parseInt parseDate a b := by
  obtain ⟨pa, hpa⟩ := Option.isSome_iff_exists.1 ha
  obtain ⟨pb, hpb⟩ := Option.isSome_iff_exists.1 hb
  obtain ⟨ta, hta2⟩ := Option.isSome_iff_exists.1 hta
  obtain ⟨tb, htb2⟩ := Option.isSome_iff_exists.1 htb
  unfold KeyLe
  rw [hpa, hpb, hta2, htb2]
  simp only [Option.getD_some]
  unfold priorityNumber at hpa hpb hinj
  unfold openedTime at hta2 htb2
  by_cases hv : a.priority.value = b.priority.value
  · have hpp : pa = pb := by
      rw [hv, hpb] at hpa
      exact (Option.some.inj hpa).symm
    simp only [compareIncidents, hv, ne_eq, not_true_eq_false, if_false, hta2, htb2, numSub,
      Option.getD_some]
    omega
  · have hpp : pa ≠ pb := by
      intro h
      apply hv
      apply hinj
      rw [hpa, hpb, h]
    simp only [compareIncidents, hv, ne_eq, not_false_eq_true, if_true, hpa, hpb, numSub,
      Option.getD_some]
    omega

theorem getStateLabel_inherited_name :
    getStateLabel (.raw (.str "constructor")) = .inherited "constructor" := by
  decide

theorem startsNewClause_append (s t : String) (hs : StartsNewClause s)
    (ht : StartsNewClause t) : StartsNewClause (s ++ t) := by
  rcases hs with hs | ⟨r, hr⟩
  · subst hs
    simpa using ht
  · right
    exact ⟨r ++ t, by rw [hr, String.append_assoc]⟩

theorem queryBeforeState_eq (filters : QueryFilters) :
    queryBeforeState filters =
      "stateIN1,2,3" ++ (locationClause filters ++ (searchClause filters ++
        priorityClause filters)) := by
  have hbase : "stateIN" ++ joinComma activeStates = "stateIN1,2,3" := by decide
  unfold queryBeforeState locationClause searchClause priorityClause
  simp only [hbase]
  generalize "stateIN1,2,3" = q
  cases hp : filters.priority with
  | none =>
    by_cases h1 : filters.location.truthy = true <;>
    by_cases h2 : filters.search.truthy = true <;>
    simp [h1, h2, String.append_assoc]
  | some priority =>
    by_cases h1 : filters.location.truthy = true <;>
    by_cases h2 : filters.search.truthy = true <;>
    by_cases h3 : priority.length > 0 <;>
    simp [h1, h2, h3, String.append_assoc]

theorem stateStep_eq (filters : QueryFilters) (query : String) :
    (match filters.state with
      | some state =>
        if state.length > 0 then
          let activeStateFilter := state.filter (fun s => activeStates.contains s)
          if activeStateFilter.length > 0 then
            query ++ "^stateIN" ++ joinComma activeStateFilter
          else query
        else query
      | none => query) = query ++ stateFilterClause (keptStates filters) := by
  have hfilter : ∀ state : List String,
      state.filter (fun s => activeStates.contains s) =
        state.filter (fun s => decide (s ∈ ["1", "2", "3"])) := by
    intro state
    apply List.filter_congr
    intro s _
    simp [activeStates]
  cases hs : filters.state with
  | none => simp [keptStates, hs, stateFilterClause]
  | some state =>
    simp only [keptStates, hs, Option.getD_some, hfilter, stateFilterClause, joinComma]
    by_cases h0 : state.length > 0
    · simp only [h0, if_true]
      generalize state.filter (fun s => decide (s ∈ ["1", "2", "3"])) = kept
      cases kept with
      | nil => simp
      | cons a l => simp [String.append_assoc]
    · have h1 : state = [] := by
        cases state with
        | nil => rfl
        | cons a l => simp at h0
      subst h1
      simp

theorem listActiveIncidentsQuery_eq (filters : QueryFilters) :
    listActiveIncidentsQuery filters =
      queryBeforeState filters ++ stateFilterClause (keptStates filters) ++
        dateClauses filters := by
  unfold listActiveIncidentsQuery dateClauses
  dsimp only
  rw [stateStep_eq]
  by_cases h1 : filters.dateFrom.truthy = true <;>
  by_cases h2 : filters.dateTo.truthy = true <;>
  simp [h1, h2, String.append_assoc]

theorem stateFilterClause_eq_empty (kept : List String) :
    stateFilterClause kept = "" ↔ kept = [] := by
  unfold stateFilterClause
  by_cases h : kept = []
  · simp [h]
  · simp only [h, if_false, iff_false]
    intro h2
    have h3 := congrArg String.length h2
    simp [String.length_append] at h3
    have h4 : "^stateIN".length = 8 := by decide
    omega

theorem listActiveIncidentsQuery_no_filters :
    listActiveIncidentsQuery noQueryFilters = "stateIN1,2,3" := by
  decide

theorem listActiveIncidentsQuery_sample :
    listActiveIncidentsQuery
      { location := .str "loc1", search := .undefined, priority := some ["1", "2"],
        state := some ["3", "7", "1"], dateFrom := .str "2024-01-01", dateTo := .undefined } =
      "stateIN1,2,3^location=loc1^priorityIN1,2^stateIN3,1^opened_at>=2024-01-01" := by
  decide

theorem filterIncidentsByMapBounds_eq {Num : Type} (incidents : List Incident)
    (bounds : Option (Bounds Num)) : filterIncidentsByMapBounds incidents bounds = incidents := by
  unfold filterIncidentsByMapBounds
  cases bounds with
  | none => rfl
  | some b =>
    obtain ⟨ne, sw⟩ := b
    cases ne <;> cases sw <;> simp

theorem mainView_ignores_map_area (toLowerCase : String → String) (st : AppState)
    (active : Bool) (bounds : Option (Bounds Int)) :
    (App.mainView toLowerCase { st with mapAreaFilterActive := active, mapBounds := bounds }).mapIncidents =
        (App.mainView toLowerCase st).mapIncidents ∧
      (App.mainView toLowerCase { st with mapAreaFilterActive := active, mapBounds := bounds }).listIncidents =
        (App.mainView toLowerCase st).listIncidents := by
  simp [App.mainView]

theorem mainView_total_eq_visible (toLowerCase : String → String) (st : AppState) :
    (App.mainView toLowerCase st).filterBar.totalIncidents =
      (App.mainView toLowerCase st).filterBar.visibleIncidents := by
  simp [App.mainView]

theorem filteredIncidents_default (toLowerCase : String → String)
    (allIncidents : List Incident) :
    filteredIncidents toLowerCase allIncidents defaultFilters = allIncidents := by
  simp [filteredIncidents, defaultFilters]

theorem samplePage_before_clear :
    activeFiltersCount samplePage.bar = 3 ∧
    filteredIncidents asciiLower samplePage.app.allIncidents samplePage.app.filters =
      [sampleIncidentB] ∧
    samplePage.app.mapAreaFilterActive = true := by
  refine ⟨by decide, by decide, by decide⟩

theorem foldl_setAdd_order (rest acc done : List Scalar)
    (hmem : ∀ a, a ∈ acc ↔ a ∈ done)
    (hord : acc.Pairwise (fun a b => done.indexOf a < done.indexOf b)) :
    (rest.foldl setAdd acc).Pairwise
      (fun a b => (done ++ rest).indexOf a < (done ++ rest).indexOf b) := by
  induction rest generalizing acc done with
  | nil => simpa using hord
  | cons x rest ih =>
    rw [List.foldl_cons]
    have hstep : ∀ a, a ∈ done → (done ++ [x]).indexOf a = done.indexOf a :=
      fun a ha => List.indexOf_append_of_mem ha
    have hold : acc.Pairwise (fun a b => (done ++ [x]).indexOf a < (done ++ [x]).indexOf b) := by
      refine List.Pairwise.imp_of_mem ?_ hord
      intro a b ha hb hab
      rw [hstep a ((hmem a).1 ha), hstep b ((hmem b).1 hb)]
      exact hab
    have hgoal : done ++ x :: rest = (done ++ [x]) ++ rest := by simp
    rw [hgoal]
    apply ih
    · intro a
      unfold setAdd
      by_cases hx : x ∈ acc
      · have hxd : x ∈ done := (hmem x).1 hx
        simp only [hx, if_true, List.mem_append, List.mem_singleton, hmem]
        constructor
        · exact Or.inl
        · rintro (h | h)
          · exact h
          · rw [h]
            exact hxd
      · simp only [hx, if_false, List.mem_append, List.mem_singleton, hmem]
    · unfold setAdd
      by_cases hx : x ∈ acc
      · simpa [hx] using hold
      · have hxd : x ∉ done := fun h => hx ((hmem x).2 h)
        simp only [hx, if_false]
        rw [List.pairwise_append]
        refine ⟨hold, List.pairwise_singleton _ _, ?_⟩
        intro a ha b hb
        rw [List.mem_singleton] at hb
        subst hb
        have had : a ∈ done := (hmem a).1 ha
        rw [hstep a had, List.indexOf_append_of_not_mem hxd]
        have := List.indexOf_lt_length.2 had
        omega

theorem newSet_first_occurrence_order (xs : List Scalar) :
    (newSet xs).Pairwise (fun a b => xs.indexOf a < xs.indexOf b) := by
  have h := foldl_setAdd_order xs [] [] (by simp) List.Pairwise.nil
  simpa [newSet] using h

theorem indexOf_filter_lt (p : Scalar → Bool) (xs : List Scalar) (a b : Scalar)
    (ha : p a = true) (hb : p b = true)
    (h : (xs.filter p).indexOf a < (xs.filter p).indexOf b) :
    xs.indexOf a < xs.indexOf b := by
  induction xs with
  | nil => simp at h
  | cons x xs ih =>
    by_cases hxa : x = a
    · subst hxa
      by_cases hxb : x = b
      · subst hxb
        simp [List.filter_cons, ha] at h
      · have : List.indexOf b (x :: xs) = List.indexOf b xs + 1 := by
          rw [List.indexOf_cons_ne _ (fun e => hxb e)]
        rw [List.indexOf_cons_self, this]
        omega
    · by_cases hxb : x = b
      · subst hxb
        simp [List.filter_cons, hb] at h
      · rw [List.indexOf_cons_ne _ (fun e => hxa e), List.indexOf_cons_ne _ (fun e => hxb e)]
        have hrec : (xs.filter p).indexOf a < (xs.filter p).indexOf b := by
          by_cases hpx : p x = true
          · rw [List.filter_cons_of_pos hpx, List.indexOf_cons_ne _ (fun e => hxa e),
              List.indexOf_cons_ne _ (fun e => hxb e)] at h
            omega
          · rw [List.filter_cons_of_neg hpx] at h
            exact h
        have := ih hrec
        omega

theorem joinValues_truthy (xs : List Scalar) (h : ∀ x ∈ xs, x.truthy = true) :
    joinValues xs = ",".intercalate (xs.map jsString) := by
  unfold joinValues
  congr 1
  apply List.map_congr_left
  intro x hx
  have := h x hx
  cases x <;> simp_all [Scalar.truthy, joinText, jsString]

theorem locationsQuery_sample :
    locationsQuery (locationIds [sampleIncidentA, sampleIncidentB, sampleIncidentC]) =
      "sys_idINloc1,loc2^latitude!=NULL^longitude!=NULL" := by
  decide

theorem popupView_sample :
    (popupView sampleGroupOfSeven).listed =
      [sampleMarkerA, sampleMarkerC, sampleMarkerA, sampleMarkerC, sampleMarkerA] ∧
    (popupView sampleGroupOfSeven).more = some (2, "... and 2 more incidents") ∧
    (popupView sampleGroupOfSeven).badge = "7 incidents" := by
  refine ⟨by decide, by decide, by decide⟩

theorem append_cons_inj {α : Type} (x : α) (l₁ r₁ l₂ r₂ : List α) (h₁ : x ∉ l₁)
    (h₂ : x ∉ l₂) (h : l₁ ++ x :: r₁ = l₂ ++ x :: r₂) : l₁ = l₂ ∧ r₁ = r₂ := by
  induction l₁ generalizing l₂ with
  | nil =>
    cases l₂ with
    | nil => simpa using h
    | cons b l₂ =>
      simp only [List.nil_append, List.cons_append, List.cons.injEq] at h
      exact absurd (h.1 ▸ List.mem_cons_self _ _) h₂
  | cons a l₁ ih =>
    cases l₂ with
    | nil =>
      simp only [List.nil_append, List.cons_append, List.cons.injEq] at h
      exact absurd (h.1 ▸ List.mem_cons_self _ _) h₁
    | cons b l₂ =>
      simp only [List.cons_append, List.cons.injEq] at h
      obtain ⟨hab, hrest⟩ := h
      have := ih l₂ (fun hx => h₁ (List.mem_cons_of_mem _ hx))
        (fun hx => h₂ (List.mem_cons_of_mem _ hx)) hrest
      exact ⟨by rw [hab, this.1], this.2⟩

/-- The template of locationKey separates positions: when number-to-text writes no comma
and gives different numbers different texts, equal keys come from equal positions. -/
theorem locationKey_separates {Num : Type} (numToString : Num → String) (p q : Num × Num)
    (hp : ',' ∉ (numToString p.1).data) (hq : ',' ∉ (numToString q.1).data)
    (h1 : numToString p.1 = numToString q.1 → p.1 = q.1)
    (h2 : numToString p.2 = numToString q.2 → p.2 = q.2)
    (h : locationKey numToString p = locationKey numToString q) : p = q := by
  have hd := congrArg String.data h
  simp only [locationKey, String.data_append] at hd
  simp only [List.append_assoc, List.singleton_append] at hd
  obtain ⟨e1, e2⟩ := append_cons_inj ',' _ _ _ _ hp hq hd
  have t1 : numToString p.1 = numToString q.1 := String.ext e1
  have t2 : numToString p.2 = numToString q.2 := String.ext e2
  exact Prod.ext (h1 t1) (h2 t2)

theorem mem_markerCoordinates {Num : Type} (markers : List (Marker Num)) (m : Marker Num)
    (hm : m ∈ markers) :
    m.position.1 ∈ markerCoordinates markers ∧ m.position.2 ∈ markerCoordinates markers := by
  unfold markerCoordinates
  simp only [List.mem_flatMap, List.mem_cons, List.mem_singleton, List.not_mem_nil, or_false]
  exact ⟨⟨m, hm, Or.inl rfl⟩, ⟨m, hm, Or.inr rfl⟩⟩

theorem locationGroups_sample :
    (locationGroups intToString sampleMarkers).map (fun g => (g.position, g.incidents.length)) =
      [((40, -74), 2), ((34, -118), 1), ((40, 10), 1)] := by
  decide

theorem getStateLabel_unknown (state : Field)
    (h : jsString state.value ∉ ["1", "2", "3"])
    (hn : jsString state.value ∉ objectPrototypeNames) :
    getStateLabel state = .text "Unknown" := by
  simp only [List.mem_cons, List.mem_singleton, List.not_mem_nil, or_false, not_or] at h
  obtain ⟨h1, h2, h3⟩ := h
  have e1 : (jsString state.value == "1") = false := by simpa using h1
  have e2 : (jsString state.value == "2") = false := by simpa using h2
  have e3 : (jsString state.value == "3") = false := by simpa using h3
  simp [getStateLabel, readProperty, stateLabels, List.lookup, e1, e2, e3, hn]

theorem numeral_not_inherited (s : String) (h : IsNumeral s) : s ∉ objectPrototypeNames := by
  intro hmem
  obtain ⟨-, hall⟩ := h
  simp only [objectPrototypeNames, List.mem_cons, List.mem_singleton, List.not_mem_nil,
    or_false] at hmem
  rcases hmem with rfl | rfl | rfl | rfl | rfl | rfl | rfl | rfl | rfl | rfl | rfl | rfl <;>
    exact absurd hall (by decide)

/-- The shape of the query: without filters it is stateIN1,2,3; for every filters
argument it begins with the clause stateIN1,2,3 (what follows is empty or starts a new
clause), and the state filter contributes exactly one further piece, placed after the
clauses of the other filters and before the date clauses: the clause stateIN of the
values of the state filter that are among 1, 2, 3, in their order, absent exactly when
none remains. -/
theorem listActiveIncidentsQuery_shape (filters : QueryFilters) :
    listActiveIncidentsQuery noQueryFilters = "stateIN1,2,3" ∧
    (∃ rest, listActiveIncidentsQuery filters = "stateIN1,2,3" ++ rest ∧
      StartsNewClause rest) ∧
    listActiveIncidentsQuery filters =
      queryBeforeState { filters with state := none } ++
        stateFilterClause (keptStates filters) ++ dateClauses filters ∧
    (∀ v, v ∈ keptStates filters ↔ (v ∈ filters.state.getD [] ∧ v ∈ ["1", "2", "3"])) ∧
    (keptStates filters).Sublist (filters.state.getD []) ∧
    (stateFilterClause (keptStates filters) = "" ↔ keptStates filters = []) := by
  have hstate : StartsNewClause (stateFilterClause (keptStates filters)) := by
    unfold stateFilterClause
    by_cases h : keptStates filters = []
    · simp only [h, if_true]
      exact Or.inl rfl
    · simp only [h, if_false]
      exact Or.inr ⟨"stateIN" ++ ",".intercalate (keptStates filters), by
        rw [← String.append_assoc]
        rfl⟩
  have hprio : StartsNewClause (priorityClause filters) := by
    unfold priorityClause
    cases filters.priority with
    | none => exact Or.inl rfl
    | some priority =>
      by_cases h : priority.length > 0
      · simp only [h, if_true]
        exact Or.inr ⟨"priorityIN" ++ joinComma priority, by
          rw [← String.append_assoc]
          rfl⟩
      · simp only [h, if_false]
        exact Or.inl rfl
  have hloc : StartsNewClause (locationClause filters) := by
    unfold locationClause
    by_cases h : filters.location.truthy = true
    · simp only [h, if_true]
      exact Or.inr ⟨"location=" ++ jsString filters.location, by
        rw [← String.append_assoc]
        rfl⟩
    · simp only [h, if_false]
      exact Or.inl rfl
  have hsearch : StartsNewClause (searchClause filters) := by
    unfold searchClause
    by_cases h : filters.search.truthy = true
    · simp only [h, if_true]
      exact Or.inr ⟨"short_descriptionLIKE" ++ jsString filters.search ++ "^ORnumberLIKE" ++
        jsString filters.search, by
        simp only [← String.append_assoc]
        rfl⟩
    · simp only [h, if_false]
      exact Or.inl rfl
  have hdate : StartsNewClause (dateClauses filters) := by
    unfold dateClauses
    apply startsNewClause_append
    · by_cases h : filters.dateFrom.truthy = true
      · simp only [h, if_true]
        exact Or.inr ⟨"opened_at>=" ++ jsString filters.dateFrom, by
          rw [← String.append_assoc]
          rfl⟩
      · simp only [h, if_false]
        exact Or.inl rfl
    · by_cases h : filters.dateTo.truthy = true
      · simp only [h, if_true]
        exact Or.inr ⟨"opened_at<=" ++ jsString filters.dateTo, by
          rw [← String.append_assoc]
          rfl⟩
      · simp only [h, if_false]
        exact Or.inl rfl
  have hsame : queryBeforeState { filters with state := none } = queryBeforeState filters := rfl
  refine ⟨by decide, ?_, ?_, ?_, ?_, stateFilterClause_eq_empty _⟩
  · refine ⟨locationClause filters ++ (searchClause filters ++ priorityClause filters) ++
      stateFilterClause (keptStates filters) ++ dateClauses filters, ?_, ?_⟩
    · rw [listActiveIncidentsQuery_eq, queryBeforeState_eq]
      simp only [String.append_assoc]
    · exact startsNewClause_append _ _ (startsNewClause_append _ _
        (startsNewClause_append _ _ hloc (startsNewClause_append _ _ hsearch hprio)) hstate)
        hdate
  · rw [hsame]
    exact listActiveIncidentsQuery_eq filters
  · intro v
    simp [keptStates, List.mem_filter]
  · exact List.filter_sublist _

theorem admitsState_no_filters (other : String → Bool) (state : String)
    (h : admitsState other (listActiveIncidentsQuery noQueryFilters) state = true) :
    state ∈ activeStates := by
  have hq : listActiveIncidentsQuery noQueryFilters = "stateIN1,2,3" := by decide
  rw [hq] at h
  have he : admitsState other "stateIN1,2,3" state =
      ([['1'], ['2'], ['3']] : List (List Char)).contains state.data := by
    simp [admitsState, splitChars, evalClause, dropLeading, conditionHolds]
  rw [he] at h
  simp only [List.contains_eq_any_beq, List.any_cons, List.any_nil, Bool.or_false,
    Bool.or_eq_true, beq_iff_eq] at h
  simp only [activeStates, List.mem_cons, List.mem_singleton, List.not_mem_nil, or_false]
  rcases h with h | h | h
  · exact Or.inl (String.ext h)
  · exact Or.inr (Or.inl (String.ext h))
  · exact Or.inr (Or.inr (String.ext h))

/-- The order of sortedIncidents in terms of what the comparator reads: when every
priority and every date is read as a number and equal priority numbers are written
alike, the result is a rearrangement of the list in which every earlier and later pair
is in the order of the comparator. -/
theorem sortedIncidents_order_of_consistent (parseInt parseDate : String → Option Int)
    (incidents : List Incident)
    (hprio : ∀ i ∈ incidents, (priorityNumber parseInt i).isSome = true)
    (hdate : ∀ i ∈ incidents, (openedTime parseDate i).isSome = true)
    (hinj : ∀ i ∈ incidents, ∀ j ∈ incidents,
      priorityNumber parseInt i = priorityNumber parseInt j →
        i.priority.value = j.priority.value) :
    (sortedIncidents parseInt parseDate incidents).Perm incidents ∧
    (sortedIncidents parseInt parseDate incidents).Chain' (InListOrder parseInt parseDate) ∧
    (sortedIncidents parseInt parseDate incidents).Pairwise
      (InListOrder parseInt parseDate) := by
  have hperm : (sortedIncidents parseInt parseDate incidents).Perm incidents :=
    List.perm_insertionSort _ incidents
  have hcongr : sortedIncidents parseInt parseDate incidents =
      incidents.insertionSort (KeyLe parseInt parseDate) := by
    unfold sortedIncidents sortWith
    apply insertionSort_congr
    intro a ha b hb
    exact compare_le_iff_keyLe parseInt parseDate a b (hprio a ha) (hprio b hb) (hdate a ha)
      (hdate b hb) (hinj a ha b hb)
  have hsorted : (sortedIncidents parseInt parseDate incidents).Pairwise
      (KeyLe parseInt parseDate) := by
    rw [hcongr]
    exact List.sorted_insertionSort _ incidents
  have hpair : (sortedIncidents parseInt parseDate incidents).Pairwise
      (InListOrder parseInt parseDate) := by
    refine List.Pairwise.imp_of_mem ?_ hsorted
    intro a b ha hb hab
    obtain ⟨pa, hpa⟩ := Option.isSome_iff_exists.1 (hprio a (hperm.mem_iff.1 ha))
    obtain ⟨pb, hpb⟩ := Option.isSome_iff_exists.1 (hprio b (hperm.mem_iff.1 hb))
    obtain ⟨ta, hta⟩ := Option.isSome_iff_exists.1 (hdate a (hperm.mem_iff.1 ha))
    obtain ⟨tb, htb⟩ := Option.isSome_iff_exists.1 (hdate b (hperm.mem_iff.1 hb))
    unfold KeyLe at hab
    rw [hpa, hpb, hta, htb] at hab
    simp only [Option.getD_some] at hab
    simp only [InListOrder, inListOrder, hpa, hpb, hta, htb, Bool.or_eq_true, Bool.and_eq_true,
      decide_eq_true_eq]
    omega
  exact ⟨hperm, List.Pairwise.chain' hpair, hpair⟩

theorem mem_of_lookup {α β : Type} [BEq α] [LawfulBEq α] (k : α) (v : β)
    (l : List (α × β)) (h : l.lookup k = some v) : (k, v) ∈ l := by
  induction l with
  | nil => simp at h
  | cons e l ih =>
    obtain ⟨a, b⟩ := e
    by_cases hk : k = a
    · subst hk
      simp only [List.lookup, beq_self_eq_true, Option.some.injEq] at h
      subst h
      exact List.mem_cons_self _ _
    · have hne : (k == a) = false := by simpa using hk
      simp only [List.lookup, hne] at h
      exact List.mem_cons_of_mem _ (ih h)

theorem priorityCodes_text_eq (a b : String) (n : Int) (ha : (a, n) ∈ priorityCodes)
    (hb : (b, n) ∈ priorityCodes) : a = b := by
  simp only [priorityCodes, List.mem_cons, List.mem_singleton, Prod.mk.injEq,
    List.not_mem_nil, or_false] at ha hb
  rcases ha with ⟨rfl, rfl⟩ | ⟨rfl, rfl⟩ | ⟨rfl, rfl⟩ | ⟨rfl, rfl⟩ | ⟨rfl, rfl⟩ <;>
    rcases hb with ⟨rfl, h⟩ | ⟨rfl, h⟩ | ⟨rfl, h⟩ | ⟨rfl, h⟩ | ⟨rfl, h⟩ <;>
    first | rfl | (exact absurd h (by decide))

theorem value_of_code (v : Scalar) (n : Int) (h : (jsString v, n) ∈ priorityCodes) :
    v = .str (jsString v) := by
  cases v with
  | str s => rfl
  | undefined =>
    exfalso
    revert h
    simp [priorityCodes, jsString]

theorem parseWhole_priorityCodes (c : String) (n : Int) (h : (c, n) ∈ priorityCodes) :
    parseWhole c = some n := by
  simp only [priorityCodes, List.mem_cons, List.mem_singleton, Prod.mk.injEq,
    List.not_mem_nil, or_false] at h
  rcases h with ⟨rfl, rfl⟩ | ⟨rfl, rfl⟩ | ⟨rfl, rfl⟩ | ⟨rfl, rfl⟩ | ⟨rfl, rfl⟩ <;> decide

theorem sortedIncidents_sample :
    sortedIncidents parseWhole parseStamp
        [sampleListModerate, sampleListOlder, sampleListNewer] =
      [sampleListNewer, sampleListOlder, sampleListModerate] := by
  decide

theorem jsParseFloat_samples :
    jsParseFloat "40" = some (.finite 40 0) ∧
    jsParseFloat "40.7128" = some (.finite 407128 4) ∧
    jsParseFloat "-74.0060" = some (.finite (-74006) 3) ∧
    jsParseFloat "  12.50" = some (.finite 125 1) ∧
    jsParseFloat ".5" = some (.finite 5 1) ∧
    jsParseFloat "1e3" = some (.finite 1000 0) ∧
    jsParseFloat "25e-1" = some (.finite 25 1) ∧
    jsParseFloat "1e" = some (.finite 1 0) ∧
    jsParseFloat "-Infinity" = some (.infinity true) ∧
    jsParseFloat "40abc" = some (.finite 40 0) ∧
    jsParseFloat "40,7128" = some (.finite 40 0) ∧
    jsParseFloat "abc" = none ∧
    jsParseFloat "n/a" = none ∧
    jsParseFloat "." = none ∧
    jsParseFloat "-" = none ∧
    jsParseFloat "" = none := by
  decide

theorem isNumericText_samples :
    IsNumericText "40" ∧ IsNumericText "-74.0060" ∧ IsNumericText "1e3" ∧
    ¬ IsNumericText "40abc" ∧ ¬ IsNumericText "1e" ∧ ¬ IsNumericText "abc" ∧
    ¬ IsNumericText "" := by
  decide

/-- Every marker comes from an incident of the list whose location reference resolves
to a record with present, non-empty latitude and longitude from which the given
parseFloat reads numbers, and its position is the pair of these numbers. -/
theorem incidentMarkers_valid_coordinates {Num : Type} (parseFloat : String → Option Num)
    (incidents : List Incident) (locations : List Location) (m : Marker Num)
    (hm : m ∈ incidentMarkers parseFloat incidents locations) :
    m.incident ∈ incidents ∧
      findLocation locations m.incident.location.value = some m.location ∧
      ∃ latText lngText a b,
        m.location.latitude.display_value = .str latText ∧ latText ≠ "" ∧
        m.location.longitude.display_value = .str lngText ∧ lngText ≠ "" ∧
        parseFloat latText = some a ∧ parseFloat lngText = some b ∧
        m.position = (a, b) := by
  obtain ⟨i, hi, location, latText, lngText, a, b, h1, h2, h3, h4, h5, h6, h7, rfl⟩ :=
    (mem_incidentMarkers_iff parseFloat incidents locations m).1 hm
  exact ⟨hi, h1, latText, lngText, a, b, h2, h3, h4, h5, h6, h7, rfl⟩

/-! ## Claims -/

/-- C1: for every incident list and filter state, filteredIncidents is the sublist of
all incidents, in their original order, of exactly the incidents that satisfy the
search predicate, the priority predicate and the state predicate (for every
lower-casing that maps exactly the empty string to the empty string). -/
theorem C1_filteredIncidents_three_predicates (toLowerCase : String → String)
    (hlow : ∀ s, toLowerCase s = "" ↔ s = "") (allIncidents : List Incident)
    (filters : FilterState) :
    ∃ p : Incident → Bool,
      (∀ i, p i = true ↔
        (SearchOk toLowerCase filters i ∧ PriorityOk filters i ∧ StateOk filters i)) ∧
      filteredIncidents toLowerCase allIncidents filters = allIncidents.filter p := by
  refine ⟨passes toLowerCase filters, ?_, filteredIncidents_eq_passes _ _ _⟩
  intro i
  have hsearch : (decide (filters.search = "") ||
      searchCallback toLowerCase (toLowerCase filters.search) i) = true ↔
      SearchOk toLowerCase filters i := by
    by_cases hs : filters.search = ""
    · simp [hs, SearchOk]
    · simp only [hs, decide_False, Bool.false_or]
      exact searchCallback_iff toLowerCase hlow filters hs i
  simp only [passes, Bool.and_eq_true, hsearch]
  simp [PriorityOk, StateOk, priorityCallback, stateCallback]

/-- Witness of C1 on two sample incidents and the search text "EMAIL". -/
theorem C1_filteredIncidents_three_predicates_witness :
    (∀ s, asciiLower s = "" ↔ s = "") ∧
    ∃ p : Incident → Bool,
      (∀ i, p i = true ↔
        (SearchOk asciiLower { defaultFilters with search := "EMAIL" } i ∧
          PriorityOk { defaultFilters with search := "EMAIL" } i ∧
          StateOk { defaultFilters with search := "EMAIL" } i)) ∧
      filteredIncidents asciiLower [sampleIncidentA, sampleIncidentB]
        { defaultFilters with search := "EMAIL" } =
        [sampleIncidentA, sampleIncidentB].filter p :=
  ⟨asciiLower_eq_empty,
    C1_filteredIncidents_three_predicates asciiLower asciiLower_eq_empty
      [sampleIncidentA, sampleIncidentB] { defaultFilters with search := "EMAIL" }⟩

/-- C2 (the code departs from the claim): with dateFrom set to 2024-01-01 the incident
opened on 2020-01-01 is still in filteredIncidents, although it is outside the date
range; filteredIncidents never reads dateFrom or dateTo. -/
theorem C2_date_range_not_applied :
    sampleIncidentA ∈ filteredIncidents asciiLower [sampleIncidentA, sampleIncidentB]
        { defaultFilters with dateFrom := "2024-01-01" } ∧
      ¬ DateRangeOk { defaultFilters with dateFrom := "2024-01-01" } sampleIncidentA := by
  constructor
  · simp [filteredIncidents, defaultFilters]
  · decide

/-- C3: for every incident and filter state, passing the client-side filter is the same
for a field given as the raw scalar v and for the field given as the pair of value v
and display_value v, for each of number, short_description, priority and state, and
for all four at once. -/
theorem C3_filter_shape_independent (toLowerCase : String → String) (filters : FilterState)
    (incident : Incident) (v : Scalar) :
    (PassesFilter toLowerCase filters { incident with number := .raw v } ↔
      PassesFilter toLowerCase filters { incident with number := .pair v v }) ∧
    (PassesFilter toLowerCase filters { incident with short_description := .raw v } ↔
      PassesFilter toLowerCase filters { incident with short_description := .pair v v }) ∧
    (PassesFilter toLowerCase filters { incident with priority := .raw v } ↔
      PassesFilter toLowerCase filters { incident with priority := .pair v v }) ∧
    (PassesFilter toLowerCase filters { incident with state := .raw v } ↔
      PassesFilter toLowerCase filters { incident with state := .pair v v }) ∧
    (∀ n d p s : Scalar,
      PassesFilter toLowerCase filters
          { incident with number := .raw n, short_description := .raw d,
                          priority := .raw p, state := .raw s } ↔
        PassesFilter toLowerCase filters
          { incident with number := .pair n n, short_description := .pair d d,
                          priority := .pair p p, state := .pair s s }) := by
  simp only [passesFilter_iff]
  refine ⟨?_, ?_, ?_, ?_, ?_⟩ <;>
    simp [passes, searchCallback, priorityCallback, stateCallback, Field.value,
      Field.display_value]

/-- C4: for every list of fetched incidents, getFilterOptions returns as priorities
exactly the non-empty normalized priority values that occur in the incidents, without
repetition and in ascending order of their text, and as states the same for the
normalized state values. -/
theorem C4_getFilterOptions_facets (incidents : List Incident) :
    ((∀ v, v ∈ (getFilterOptions (.ok incidents)).priorities ↔
        (v.truthy = true ∧ ∃ i ∈ incidents, i.priority.value = v)) ∧
      (getFilterOptions (.ok incidents)).priorities.Nodup ∧
      (getFilterOptions (.ok incidents)).priorities.Pairwise TextAscending) ∧
    ((∀ v, v ∈ (getFilterOptions (.ok incidents)).states ↔
        (v.truthy = true ∧ ∃ i ∈ incidents, i.state.value = v)) ∧
      (getFilterOptions (.ok incidents)).states.Nodup ∧
      (getFilterOptions (.ok incidents)).states.Pairwise TextAscending) := by
  have hp := facet_spec (incidents.map (fun i => i.priority.value))
  have hs := facet_spec (incidents.map (fun i => i.state.value))
  simp only [List.mem_map] at hp hs
  exact ⟨hp, hs⟩

/-- C5: for every list of incident markers, locationGroups partitions the markers by
coordinate: the groups together hold exactly the markers, every marker belongs to
exactly one group, every incident of a group has the location key of the group's
position, and so, number-to-text writing no comma and giving the different coordinates
of the markers different texts, the group's position itself; no two groups have the same
position, and the sizes of the groups sum to the number of markers. -/
theorem C5_locationGroups_partition {Num : Type} (numToString : Num → String)
    (markers : List (Marker Num)) :
    ((locationGroups numToString markers).flatMap (fun g => g.incidents)).Perm markers ∧
    (∀ m ∈ markers, ∃! g, g ∈ locationGroups numToString markers ∧ m ∈ g.incidents) ∧
    (∀ g ∈ locationGroups numToString markers, ∀ m ∈ g.incidents,
      locationKey numToString m.position = locationKey numToString g.position) ∧
    ((∀ x ∈ markerCoordinates markers, ',' ∉ (numToString x).data) →
      (∀ x ∈ markerCoordinates markers, ∀ y ∈ markerCoordinates markers,
        numToString x = numToString y → x = y) →
      ∀ g ∈ locationGroups numToString markers, ∀ m ∈ g.incidents,
        m.position = g.position) ∧
    ((locationGroups numToString markers).map (fun g => g.position)).Nodup ∧
    ((locationGroups numToString markers).map (fun g => g.incidents.length)).sum =
      markers.length := by
  obtain ⟨hnd, hok, hperm⟩ := foldl_groupsPush_inv numToString markers [] (by simp)
    (by simp)
  simp only [List.flatMap_nil, List.nil_append] at hperm
  unfold locationGroups
  generalize markers.foldl (fun groups incident =>
    groupsPush (locationKey numToString incident.position) incident groups) [] = gs at *
  have hflat : (gs.map Prod.snd).flatMap (fun g => g.incidents) =
      gs.flatMap (fun e => e.2.incidents) := by
    simp [List.flatMap_map]
  have hmemAll : ∀ e ∈ gs, ∀ m ∈ e.2.incidents, m ∈ markers := by
    intro e he m hm
    exact hperm.mem_iff.1 (List.mem_flatMap.2 ⟨e, he, hm⟩)
  refine ⟨?_, ?_, ?_, ?_, ?_, ?_⟩
  · rw [hflat]
    exact hperm
  · intro m hm
    obtain ⟨e, he, hme⟩ := List.mem_flatMap.1 (hperm.mem_iff.2 hm)
    refine ⟨e.2, ⟨List.mem_map.2 ⟨e, he, rfl⟩, hme⟩, ?_⟩
    rintro g ⟨hg, hmg⟩
    obtain ⟨e2, he2, rfl⟩ := List.mem_map.1 hg
    have hk : e2.1 = e.1 := by
      rw [← (hok e2 he2).2.1 m hmg, ← (hok e he).2.1 m hme]
    rw [eq_of_key_eq gs hnd e2 e he2 he hk]
  · intro g hg m hm
    obtain ⟨e, he, rfl⟩ := List.mem_map.1 hg
    obtain ⟨h1, h2, -⟩ := hok e he
    rw [h2 m hm, h1]
  · intro hcomma hsep g hg m hm
    have hkey : ∀ m1 ∈ markers, ∀ m2 ∈ markers,
        locationKey numToString m1.position = locationKey numToString m2.position →
          m1.position = m2.position := by
      intro m1 h1 m2 h2 hk
      obtain ⟨a1, b1⟩ := mem_markerCoordinates markers m1 h1
      obtain ⟨a2, b2⟩ := mem_markerCoordinates markers m2 h2
      exact locationKey_separates numToString m1.position m2.position (hcomma _ a1)
        (hcomma _ a2) (hsep _ a1 _ a2) (hsep _ b1 _ b2) hk
    obtain ⟨e, he, rfl⟩ := List.mem_map.1 hg
    obtain ⟨h1, h2, m0, hm0, hp⟩ := hok e he
    rw [← hp]
    apply hkey m (hmemAll e he m hm) m0 (hmemAll e he m0 hm0)
    rw [h2 m hm, h2 m0 hm0]
  · have hmap : gs.map Prod.fst =
        ((gs.map Prod.snd).map (fun g => g.position)).map (locationKey numToString) := by
      rw [List.map_map, List.map_map]
      apply List.map_congr_left
      intro e he
      exact (hok e he).1
    rw [hmap] at hnd
    exact List.Nodup.of_map _ hnd
  · rw [← hperm.length_eq, ← hflat, List.length_flatMap]
    simp [List.map_map, Function.comp_def]

/-- Witness of C5 on four markers at three positions with integer coordinates: every
incident of a group has the group's position. -/
theorem C5_locationGroups_partition_witness :
    (∀ x ∈ markerCoordinates sampleMarkers, ',' ∉ (intToString x).data) ∧
    (∀ x ∈ markerCoordinates sampleMarkers, ∀ y ∈ markerCoordinates sampleMarkers,
      intToString x = intToString y → x = y) ∧
    (∀ g ∈ locationGroups intToString sampleMarkers, ∀ m ∈ g.incidents,
      m.position = g.position) :=
  ⟨by decide, by decide,
    (C5_locationGroups_partition intToString sampleMarkers).2.2.2.1 (by decide) (by decide)⟩

/-- C6 (counterexample to the claim as stated): the latitude text 40abc is not a
number, but parseFloat reads the number 40 at its start, so the incident whose location
has this latitude is in incidentMarkers, placed at latitude 40. -/
theorem C6_numeric_start_is_mapped :
    ¬ IsNumericText "40abc" ∧
    findLocation [sampleLocationOdd] sampleIncidentA.location.value = some sampleLocationOdd ∧
    sampleLocationOdd.latitude.display_value = .str "40abc" ∧
    incidentMarkers jsParseFloat [sampleIncidentA] [sampleLocationOdd] =
      [{ incident := sampleIncidentA, position := (.finite 40 0, .finite (-74) 0),
         location := sampleLocationOdd }] := by
  refine ⟨by decide, by decide, by decide, by decide⟩

/-- C6 (amended): incidentMarkers contains no incident whose location reference matches
no location record, and no incident whose resolved location has a latitude or longitude
that is missing, empty or without a number at its start (parseFloat gives NaN); every
marker that is produced has as position the pair of the numbers parseFloat reads from
the latitude and longitude of its resolved location, and every incident whose resolved
location has such a latitude and longitude gets its marker. -/
theorem C6_incidentMarkers_valid_coordinates (incidents : List Incident)
    (locations : List Location) :
    (∀ m ∈ incidentMarkers jsParseFloat incidents locations,
      m.incident ∈ incidents ∧
      findLocation locations m.incident.location.value = some m.location ∧
      ∃ latText lngText a b,
        m.location.latitude.display_value = .str latText ∧ latText ≠ "" ∧
        m.location.longitude.display_value = .str lngText ∧ lngText ≠ "" ∧
        jsParseFloat latText = some a ∧ jsParseFloat lngText = some b ∧
        m.position = (a, b)) ∧
    (∀ i ∈ incidents, ∀ location latText lngText a b,
      findLocation locations i.location.value = some location →
      location.latitude.display_value = .str latText → latText ≠ "" →
      location.longitude.display_value = .str lngText → lngText ≠ "" →
      jsParseFloat latText = some a → jsParseFloat lngText = some b →
        { incident := i, position := (a, b), location := location } ∈
          incidentMarkers jsParseFloat incidents locations) ∧
    (∀ i ∈ incidents,
      (findLocation locations i.location.value = none ∨
        ∃ location, findLocation locations i.location.value = some location ∧
          (location.latitude.display_value.truthy = false ∨
            location.longitude.display_value.truthy = false ∨
            jsParseFloat (jsString location.latitude.display_value) = none ∨
            jsParseFloat (jsString location.longitude.display_value) = none)) →
        ∀ m ∈ incidentMarkers jsParseFloat incidents locations, m.incident ≠ i) := by
  refine ⟨?_, ?_, ?_⟩
  · intro m hm
    exact incidentMarkers_valid_coordinates jsParseFloat incidents locations m hm
  · intro i hi location latText lngText a b h1 h2 h3 h4 h5 h6 h7
    exact (mem_incidentMarkers_iff jsParseFloat incidents locations _).2
      ⟨i, hi, location, latText, lngText, a, b, h1, h2, h3, h4, h5, h6, h7, rfl⟩
  · intro i _ hbad m hm hmi
    obtain ⟨-, hfind, latText, lngText, a, b, h2, h3, h4, h5, h6, h7, -⟩ :=
      incidentMarkers_valid_coordinates jsParseFloat incidents locations m hm
    rw [hmi] at hfind
    rcases hbad with hnone | ⟨location, hsome, hrest⟩
    · rw [hnone] at hfind
      exact Option.noConfusion hfind
    · rw [hsome] at hfind
      have hloc : location = m.location := Option.some.inj hfind
      subst hloc
      rcases hrest with h | h | h | h
      · rw [h2] at h
        simp [Scalar.truthy, h3] at h
      · rw [h4] at h
        simp [Scalar.truthy, h5] at h
      · rw [h2, jsString, h6] at h
        exact Option.noConfusion h
      · rw [h4, jsString, h7] at h
        exact Option.noConfusion h

/-- Witness of C6: with decimal coordinates sample incident A gets its marker at
(40.7128, -74.006); with the latitude n/a it gets none. -/
theorem C6_incidentMarkers_valid_coordinates_witness :
    ({ incident := sampleIncidentA, position := (.finite 407128 4, .finite (-74006) 3),
       location := sampleLocationDecimal } : Marker JsNumber) ∈
      incidentMarkers jsParseFloat [sampleIncidentA, sampleIncidentB]
        [sampleLocationDecimal, sampleLocationB] ∧
    (∀ m ∈ incidentMarkers jsParseFloat [sampleIncidentA] [sampleLocationUnknown],
      m.incident ≠ sampleIncidentA) :=
  ⟨(C6_incidentMarkers_valid_coordinates [sampleIncidentA, sampleIncidentB]
      [sampleLocationDecimal, sampleLocationB]).2.1 sampleIncidentA (by decide)
      sampleLocationDecimal "40.7128" "-74.0060" (.finite 407128 4) (.finite (-74006) 3)
      (by decide) (by decide) (by decide) (by decide) (by decide) (by decide) (by decide),
    (C6_incidentMarkers_valid_coordinates [sampleIncidentA] [sampleLocationUnknown]).2.2
      sampleIncidentA (by decide)
      (Or.inr ⟨sampleLocationUnknown, by decide, Or.inr (Or.inr (Or.inl (by decide)))⟩)⟩

/-- C7: the location record attached to a marker is the first record of the location
list whose normalized sys_id equals the normalized location reference of the marker's
incident, so two markers whose incidents reference the same identifier carry the same
location record. -/
theorem C7_marker_location_is_first_match {Num : Type} (parseFloat : String → Option Num)
    (incidents : List Incident) (locations : List Location) (m1 m2 : Marker Num)
    (h1 : m1 ∈ incidentMarkers parseFloat incidents locations)
    (h2 : m2 ∈ incidentMarkers parseFloat incidents locations) :
    (m1.location.sys_id.value = m1.incident.location.value ∧
      ∃ before after, locations = before ++ m1.location :: after ∧
        ∀ l ∈ before, l.sys_id.value ≠ m1.incident.location.value) ∧
    (m1.incident.location.value = m2.incident.location.value → m1.location = m2.location) := by
  obtain ⟨i1, -, l1, -, -, -, -, f1, -, -, -, -, -, -, rfl⟩ :=
    (mem_incidentMarkers_iff parseFloat incidents locations m1).1 h1
  obtain ⟨i2, -, l2, -, -, -, -, f2, -, -, -, -, -, -, rfl⟩ :=
    (mem_incidentMarkers_iff parseFloat incidents locations m2).1 h2
  refine ⟨findLocation_eq_some locations _ _ f1, ?_⟩
  intro h
  simp only at h
  rw [h, f2] at f1
  exact (Option.some.inj f1).symm

/-- Witness of C7: sample incidents A and C both reference loc1. -/
theorem C7_marker_location_is_first_match_witness :
    (sampleMarkerA.location.sys_id.value = sampleMarkerA.incident.location.value ∧
      ∃ before after, [sampleLocationA, sampleLocationB] =
          before ++ sampleMarkerA.location :: after ∧
        ∀ l ∈ before, l.sys_id.value ≠ sampleMarkerA.incident.location.value) ∧
    (sampleMarkerA.incident.location.value = sampleMarkerC.incident.location.value →
      sampleMarkerA.location = sampleMarkerC.location) :=
  C7_marker_location_is_first_match parseWhole
    [sampleIncidentA, sampleIncidentB, sampleIncidentC]
    [sampleLocationA, sampleLocationB] sampleMarkerA sampleMarkerC (by decide) (by decide)

/-- C8: for every list of incidents of the data model (each priority one of the codes 1
to 5, each opened timestamp well-formed, and the display text of opened_at read by Date
as a time, in the order of the timestamps), sortedIncidents is a rearrangement of the
list ordered by priority number ascending and, within one priority, by opened date
newest first: every adjacent pair (a, b), and every earlier and later pair, has
priority(a) < priority(b), or equal priorities and opened(a) >= opened(b). -/
theorem C8_sortedIncidents_order (parseInt parseDate : String → Option Int)
    (incidents : List Incident)
    (hparse : ∀ c n, (c, n) ∈ priorityCodes → parseInt c = some n)
    (hcode : ∀ i ∈ incidents, (priorityCode i).isSome = true)
    (hstamp : ∀ i ∈ incidents, (openedStamp i).isSome = true)
    (hshown : ∀ i ∈ incidents, (openedTime parseDate i).isSome = true)
    (horder : ∀ i ∈ incidents, ∀ j ∈ incidents,
      leOpt (openedTime parseDate i) (openedTime parseDate j) =
        leOpt (openedStamp i) (openedStamp j)) :
    (sortedIncidents parseInt parseDate incidents).Perm incidents ∧
    (sortedIncidents parseInt parseDate incidents).Chain' InOpenedOrder ∧
    (sortedIncidents parseInt parseDate incidents).Pairwise InOpenedOrder := by
  have hnum : ∀ i ∈ incidents, priorityNumber parseInt i = priorityCode i := by
    intro i hi
    obtain ⟨n, hn⟩ := Option.isSome_iff_exists.1 (hcode i hi)
    have hm : (jsString i.priority.value, n) ∈ priorityCodes := mem_of_lookup _ _ _ hn
    rw [hn]
    exact hparse _ _ hm
  have hinj : ∀ i ∈ incidents, ∀ j ∈ incidents,
      priorityNumber parseInt i = priorityNumber parseInt j →
        i.priority.value = j.priority.value := by
    intro i hi j hj h
    rw [hnum i hi, hnum j hj] at h
    obtain ⟨n, hn⟩ := Option.isSome_iff_exists.1 (hcode i hi)
    have hn2 : priorityCode j = some n := by rw [← h, hn]
    have mi : (jsString i.priority.value, n) ∈ priorityCodes := mem_of_lookup _ _ _ hn
    have mj : (jsString j.priority.value, n) ∈ priorityCodes := mem_of_lookup _ _ _ hn2
    rw [value_of_code _ n mi, value_of_code _ n mj, priorityCodes_text_eq _ _ n mi mj]
  have hprio : ∀ i ∈ incidents, (priorityNumber parseInt i).isSome = true := by
    intro i hi
    rw [hnum i hi]
    exact hcode i hi
  obtain ⟨hperm, -, hpair⟩ :=
    sortedIncidents_order_of_consistent parseInt parseDate incidents hprio hshown hinj
  have hnew : (sortedIncidents parseInt parseDate incidents).Pairwise InOpenedOrder := by
    refine List.Pairwise.imp_of_mem ?_ hpair
    intro a b ha hb hab
    have ha2 := hperm.mem_iff.1 ha
    have hb2 := hperm.mem_iff.1 hb
    obtain ⟨pa, hpa⟩ := Option.isSome_iff_exists.1 (hcode a ha2)
    obtain ⟨pb, hpb⟩ := Option.isSome_iff_exists.1 (hcode b hb2)
    obtain ⟨ta, hta⟩ := Option.isSome_iff_exists.1 (hshown a ha2)
    obtain ⟨tb, htb⟩ := Option.isSome_iff_exists.1 (hshown b hb2)
    obtain ⟨sa, hsa⟩ := Option.isSome_iff_exists.1 (hstamp a ha2)
    obtain ⟨sb, hsb⟩ := Option.isSome_iff_exists.1 (hstamp b hb2)
    have hord := horder b hb2 a ha2
    rw [htb, hta, hsb, hsa] at hord
    simp only [leOpt, decide_eq_decide] at hord
    have hna := hnum a ha2
    have hnb := hnum b hb2
    rw [hpa] at hna
    rw [hpb] at hnb
    simp only [InListOrder, inListOrder, hna, hnb, hta, htb, Bool.or_eq_true,
      Bool.and_eq_true, decide_eq_true_eq] at hab
    simp only [InOpenedOrder, inOpenedOrder, hpa, hpb, hsa, hsb, Bool.or_eq_true,
      Bool.and_eq_true, decide_eq_true_eq]
    rcases hab with h | ⟨h1, h2⟩
    · exact Or.inl h
    · exact Or.inr ⟨h1, hord.1 h2⟩
  exact ⟨hperm, List.Pairwise.chain' hnew, hnew⟩

/-- Witness of C8: three incidents given as priority 2, then priority 1 opened in
March, then priority 1 opened in June; the two of priority 1 have different dates and
come out newest first. -/
theorem C8_sortedIncidents_order_witness :
    (sortedIncidents parseWhole parseStamp
      [sampleListModerate, sampleListOlder, sampleListNewer]).Perm
        [sampleListModerate, sampleListOlder, sampleListNewer] ∧
    (sortedIncidents parseWhole parseStamp
      [sampleListModerate, sampleListOlder, sampleListNewer]).Chain' InOpenedOrder ∧
    (sortedIncidents parseWhole parseStamp
      [sampleListModerate, sampleListOlder, sampleListNewer]).Pairwise InOpenedOrder :=
  C8_sortedIncidents_order parseWhole parseStamp
    [sampleListModerate, sampleListOlder, sampleListNewer] parseWhole_priorityCodes
    (by decide) (by decide) (by decide) (by decide)

/-- C9: for every state field, raw or a pair, getStateLabel returns New when the
normalized value is 1, In Progress when it is 2, On Hold when it is 3, and Unknown for
every other state value: every other numeral, and an absent or empty value. -/
theorem C9_getStateLabel_table (state : Field) :
    (jsString state.value = "1" → getStateLabel state = .text "New") ∧
    (jsString state.value = "2" → getStateLabel state = .text "In Progress") ∧
    (jsString state.value = "3" → getStateLabel state = .text "On Hold") ∧
    (jsString state.value ∉ ["1", "2", "3"] →
      (IsNumeral (jsString state.value) ∨ state.value = .undefined ∨ state.value = .str "") →
        getStateLabel state = .text "Unknown") := by
  refine ⟨?_, ?_, ?_, ?_⟩
  · intro h
    simp [getStateLabel, readProperty, stateLabels, List.lookup, h]
  · intro h
    simp [getStateLabel, readProperty, stateLabels, List.lookup, h]
  · intro h
    simp [getStateLabel, readProperty, stateLabels, List.lookup, h]
  · intro h hcode
    apply getStateLabel_unknown state h
    rcases hcode with hnum | hund | hempty
    · exact numeral_not_inherited _ hnum
    · rw [hund]
      decide
    · rw [hempty]
      decide

/-- Witness of C9: the pair with value 2 is labelled In Progress, the raw value 7, the
pair with value 6 and an absent value are labelled Unknown. -/
theorem C9_getStateLabel_table_witness :
    getStateLabel (.pair (.str "2") (.str "In Progress")) = .text "In Progress" ∧
    getStateLabel (.raw (.str "7")) = .text "Unknown" ∧
    getStateLabel (.pair (.str "6") (.str "Resolved")) = .text "Unknown" ∧
    getStateLabel (.raw .undefined) = .text "Unknown" :=
  ⟨(C9_getStateLabel_table (.pair (.str "2") (.str "In Progress"))).2.1 rfl,
    (C9_getStateLabel_table (.raw (.str "7"))).2.2.2 (by decide) (Or.inl (by decide)),
    (C9_getStateLabel_table (.pair (.str "6") (.str "Resolved"))).2.2.2 (by decide)
      (Or.inl (by decide)),
    (C9_getStateLabel_table (.raw .undefined)).2.2.2 (by decide) (Or.inr (Or.inl rfl))⟩

/-- C10 (the code departs from the claim): with the search text x^NQstateIN6,7 the
query sent by listActiveIncidents still begins with stateIN1,2,3, but the search text is
put into it as it is and brings the clause NQstateIN6,7, a new query on the states 6
and 7; the request admits a record in state 6, also when every condition on another
column fails. Without filters the query admits the states 1, 2, 3 only. -/
theorem C10_search_text_admits_other_states :
    listActiveIncidentsQuery searchWithNewQuery =
      "stateIN1,2,3^short_descriptionLIKEx^NQstateIN6,7^ORnumberLIKEx^NQstateIN6,7" ∧
    queryClauses (listActiveIncidentsQuery searchWithNewQuery) =
      ["stateIN1,2,3", "short_descriptionLIKEx", "NQstateIN6,7", "ORnumberLIKEx",
        "NQstateIN6,7"] ∧
    admitsState (fun _ => false) (listActiveIncidentsQuery searchWithNewQuery) "6" = true ∧
    "6" ∉ activeStates ∧
    (∀ state ∈ ["4", "5", "6", "7", "8"],
      admitsState (fun _ => true) (listActiveIncidentsQuery noQueryFilters) state = false) := by
  refine ⟨by decide, by decide, by decide, by decide, by decide⟩

/-- C11 (the code departs from the claim): for bounds that provide both corners,
filterIncidentsByMapBounds returns sample incident B, whose location (34, -118) lies
outside the bounds from (35, -80) to (45, -70); it returns the whole list. -/
theorem C11_outside_incident_returned :
    filterIncidentsByMapBounds [sampleIncidentA, sampleIncidentB] (some sampleBounds) =
      [sampleIncidentA, sampleIncidentB] ∧
    incidentPosition parseWhole [sampleLocationA, sampleLocationB] sampleIncidentB =
      some (34, -118) ∧
    ¬ LocatedInside parseWhole [sampleLocationA, sampleLocationB]
      { lat := 35, lng := -80 } { lat := 45, lng := -70 } sampleIncidentB := by
  refine ⟨by decide, by decide, by decide⟩

/-- C12 (the code departs from the claim): with the Map Area filter active and the map
bounds known, App still passes sample incident B to the map and to the list, although
its location (34, -118) lies outside the bounds from (35, -80) to (45, -70). -/
theorem C12_map_area_filter_not_applied :
    sampleMapAreaState.mapAreaFilterActive = true ∧
    sampleMapAreaState.mapBounds = some sampleBounds ∧
    App.render asciiLower sampleMapAreaState =
      .main (App.mainView asciiLower sampleMapAreaState) ∧
    (App.mainView asciiLower sampleMapAreaState).mapIncidents =
      [sampleIncidentA, sampleIncidentB] ∧
    (App.mainView asciiLower sampleMapAreaState).listIncidents =
      [sampleIncidentA, sampleIncidentB] ∧
    ¬ LocatedInside parseWhole sampleMapAreaState.locations
      { lat := 35, lng := -80 } { lat := 45, lng := -70 } sampleIncidentB := by
  refine ⟨by decide, by decide, by decide, by decide, by decide, by decide⟩

/-- C13 (the code departs from the claim): with two loaded incidents of which the
search text EMAIL keeps one, FilterBar is given 1 as visible count and 1, not 2, as
total count, and the line reads Showing 1 of 1 active incidents. -/
theorem C13_total_is_filtered_count :
    sampleSearchState.allIncidents.length = 2 ∧
    (App.mainView asciiLower sampleSearchState).filterBar.visibleIncidents = 1 ∧
    (App.mainView asciiLower sampleSearchState).filterBar.totalIncidents = 1 ∧
    resultCount (App.mainView asciiLower sampleSearchState).filterBar =
      "Showing 1 of 1 active incidents" := by
  refine ⟨by decide, by decide, by decide, by decide⟩

/-- C14: for every state of the page, after Clear All the filter state of App is the
default one, the inputs of FilterBar are empty, the map-area filter is inactive, the
active-filter count is 0, the incident list is untouched and the filtered incident
list equals it. -/
theorem C14_clear_all_resets (toLowerCase : String → String) (page : Page) :
    (FilterBar.handleClearAll page).app.filters = defaultFilters ∧
    (FilterBar.handleClearAll page).bar =
      { searchText := "", selectedPriorities := [], selectedStates := [],
        dateFrom := "", dateTo := "" } ∧
    (FilterBar.handleClearAll page).app.mapAreaFilterActive = false ∧
    activeFiltersCount (FilterBar.handleClearAll page).bar = 0 ∧
    (FilterBar.handleClearAll page).app.allIncidents = page.app.allIncidents ∧
    filteredIncidents toLowerCase (FilterBar.handleClearAll page).app.allIncidents
      (FilterBar.handleClearAll page).app.filters = page.app.allIncidents := by
  have hf : (FilterBar.handleClearAll page).app.filters = defaultFilters := rfl
  have ha : (FilterBar.handleClearAll page).app.allIncidents = page.app.allIncidents := rfl
  refine ⟨hf, rfl, rfl, rfl, ha, ?_⟩
  rw [hf, ha]
  exact filteredIncidents_default toLowerCase page.app.allIncidents

/-- C15: when the incident fetch or the location fetch fails, loadData ends with loading
false and error equal to the text Failed to load active incident data: followed by
the message of the failure, and leaves the incident list and the location list as they
were, also when the incidents had been fetched; when both succeed, it ends with loading
false, error null and both lists holding the fetched data. -/
theorem C15_loadData_outcomes (st : AppState) (incidentData : List Incident)
    (locationData : List Location) (message : String)
    (locationFetch : Except String (List Location)) :
    ((loadData st (.error message) locationFetch).loading = false ∧
      (loadData st (.error message) locationFetch).error =
        some ("Failed to load active incident data: " ++ message) ∧
      (loadData st (.error message) locationFetch).allIncidents = st.allIncidents ∧
      (loadData st (.error message) locationFetch).locations = st.locations) ∧
    ((loadData st (.ok incidentData) (.error message)).loading = false ∧
      (loadData st (.ok incidentData) (.error message)).error =
        some ("Failed to load active incident data: " ++ message) ∧
      (loadData st (.ok incidentData) (.error message)).allIncidents = st.allIncidents ∧
      (loadData st (.ok incidentData) (.error message)).locations = st.locations) ∧
    ((loadData st (.ok incidentData) (.ok locationData)).loading = false ∧
      (loadData st (.ok incidentData) (.ok locationData)).error = none ∧
      (loadData st (.ok incidentData) (.ok locationData)).allIncidents = incidentData ∧
      (loadData st (.ok incidentData) (.ok locationData)).locations = locationData) := by
  refine ⟨⟨rfl, rfl, rfl, rfl⟩, ⟨rfl, rfl, rfl, rfl⟩, ⟨rfl, rfl, rfl, rfl⟩⟩

/-- C16: for every list of active incidents, the location ids are exactly the non-empty
normalized location references of the incidents, each once and in order of first
occurrence; when there is one, listActiveIncidentLocations sends one location request
whose query is sys_idIN followed by these ids joined by commas and the two coordinate
clauses, and returns its answer; when no incident has a location reference, it returns
the empty list and sends no location request. -/
theorem C16_location_ids_and_request (incidents : List Incident)
    (fetchLocations : String → Except String (List Location)) :
    (∀ v, v ∈ locationIds incidents ↔
      (v.truthy = true ∧ v ∈ locationReferences incidents)) ∧
    (locationIds incidents).Nodup ∧
    (locationIds incidents).Pairwise (fun a b =>
      (locationReferences incidents).indexOf a < (locationReferences incidents).indexOf b) ∧
    (locationIds incidents ≠ [] →
      (listActiveIncidentLocations (.ok incidents) fetchLocations).locationRequests =
        ["sys_idIN" ++ ",".intercalate ((locationIds incidents).map jsString) ++
          "^latitude!=NULL^longitude!=NULL"] ∧
      (listActiveIncidentLocations (.ok incidents) fetchLocations).result =
        fetchLocations ("sys_idIN" ++ ",".intercalate ((locationIds incidents).map jsString) ++
          "^latitude!=NULL^longitude!=NULL")) ∧
    ((∀ i ∈ incidents, i.location.value.truthy = false) →
      (listActiveIncidentLocations (.ok incidents) fetchLocations).result = .ok [] ∧
      (listActiveIncidentLocations (.ok incidents) fetchLocations).locationRequests = []) := by
  have hmem : ∀ v, v ∈ locationIds incidents ↔
      (v.truthy = true ∧ v ∈ locationReferences incidents) := by
    intro v
    unfold locationIds locationReferences
    rw [mem_newSet, List.mem_filter]
    tauto
  refine ⟨hmem, nodup_newSet _, ?_, ?_, ?_⟩
  · refine List.Pairwise.imp_of_mem ?_ (newSet_first_occurrence_order _)
    intro a b ha hb hab
    exact indexOf_filter_lt Scalar.truthy _ a b ((hmem a).1 ha).1 ((hmem b).1 hb).1 hab
  · intro hne
    have hlen : ¬ (locationIds incidents).length = 0 := by
      intro h
      exact hne (List.length_eq_zero.1 h)
    have hq : locationsQuery (locationIds incidents) =
        "sys_idIN" ++ ",".intercalate ((locationIds incidents).map jsString) ++
          "^latitude!=NULL^longitude!=NULL" := by
      unfold locationsQuery
      rw [joinValues_truthy _ (fun x hx => ((hmem x).1 hx).1)]
    simp only [listActiveIncidentLocations, hlen, if_false, hq, and_self]
  · intro hnone
    have hnil : locationIds incidents = [] := by
      apply List.eq_nil_iff_forall_not_mem.2
      intro v hv
      obtain ⟨ht, hr⟩ := (hmem v).1 hv
      unfold locationReferences at hr
      obtain ⟨i, hi, rfl⟩ := List.mem_map.1 hr
      rw [hnone i hi] at ht
      exact Bool.false_ne_true ht
    simp [listActiveIncidentLocations, hnil]

/-- Witness of C16: the incidents A, B, C reference loc1, loc2, loc1 and the request
lists loc1,loc2; an incident without a reference causes no request. -/
theorem C16_location_ids_and_request_witness :
    ((listActiveIncidentLocations (.ok [sampleIncidentA, sampleIncidentB, sampleIncidentC])
        sampleLocationTable).locationRequests =
      ["sys_idIN" ++ ",".intercalate
          ((locationIds [sampleIncidentA, sampleIncidentB, sampleIncidentC]).map jsString) ++
        "^latitude!=NULL^longitude!=NULL"] ∧
      (listActiveIncidentLocations (.ok [sampleIncidentA, sampleIncidentB, sampleIncidentC])
        sampleLocationTable).result =
      sampleLocationTable ("sys_idIN" ++ ",".intercalate
          ((locationIds [sampleIncidentA, sampleIncidentB, sampleIncidentC]).map jsString) ++
        "^latitude!=NULL^longitude!=NULL")) ∧
    ((listActiveIncidentLocations (.ok [sampleIncidentNoLocation]) sampleLocationTable).result =
        .ok [] ∧
      (listActiveIncidentLocations (.ok [sampleIncidentNoLocation])
        sampleLocationTable).locationRequests = []) :=
  ⟨(C16_location_ids_and_request [sampleIncidentA, sampleIncidentB, sampleIncidentC]
      sampleLocationTable).2.2.2.1 (by decide),
    (C16_location_ids_and_request [sampleIncidentNoLocation] sampleLocationTable).2.2.2.2
      (by decide)⟩

/-- C17: for every location group of n incidents, the popup lists the first min(n, 5)
incidents of the group in group order and shows n in its header; the line about more
incidents is shown if and only if n > 5, it then shows k = n - 5, and the number of
listed incidents plus k is n; without the line all n incidents are listed. -/
theorem C17_popup_lists_first_five {Num : Type} (group : Group Num) :
    (popupView group).incidentCount = group.incidents.length ∧
    (popupView group).listed = group.incidents.take 5 ∧
    (popupView group).listed.length = min group.incidents.length 5 ∧
    ((popupView group).more.isSome = true ↔ group.incidents.length > 5) ∧
    (∀ k text, (popupView group).more = some (k, text) →
      k = group.incidents.length - 5 ∧
      text = "... and " ++ toString k ++ " more incident" ++ (if k ≠ 1 then "s" else "") ∧
      (popupView group).listed.length + k = group.incidents.length) ∧
    ((popupView group).more = none →
      (popupView group).listed.length = group.incidents.length) := by
  refine ⟨rfl, rfl, ?_, ?_, ?_, ?_⟩
  · simp [popupView, Nat.min_comm]
  · by_cases h : group.incidents.length > 5 <;> simp [popupView, h]
  · intro k text hk
    by_cases h : group.incidents.length > 5
    · simp only [popupView, h, if_true, Option.some.injEq, Prod.mk.injEq] at hk
      obtain ⟨h1, h2⟩ := hk
      subst h1
      refine ⟨rfl, h2.symm, ?_⟩
      simp only [popupView, List.length_take]
      omega
    · simp [popupView, h] at hk
  · intro hnone
    by_cases h : group.incidents.length > 5
    · simp [popupView, h] at hnone
    · simp only [popupView, List.length_take]
      omega

/-- Witness of C17: a group of seven incidents lists five and shows 2 more. -/
theorem C17_popup_lists_first_five_witness :
    (2 = sampleGroupOfSeven.incidents.length - 5 ∧
      "... and 2 more incidents" =
        "... and " ++ toString 2 ++ " more incident" ++ (if 2 ≠ 1 then "s" else "") ∧
      (popupView sampleGroupOfSeven).listed.length + 2 =
        sampleGroupOfSeven.incidents.length) :=
  (C17_popup_lists_first_five sampleGroupOfSeven).2.2.2.2.1 2 "... and 2 more incidents"
    (by decide)

end IncidentMap
